import Mathlib

/-
  Verification of the backend auth / messaging core of api/chat-rooms.js.

  The Redis keyspace is shallowly embedded: each key family of the source
  becomes a typed field of ChatState.  Keys that the source enumerates with
  SCAN (token collections, presence entries) are association lists so that
  scans and counts are expressible; keys that are only ever read or written
  point-wise are plain functions.  Every entry carries the optional expiry
  deadline (in ms since epoch) that Redis attaches via the EX option; a key
  is alive at time `now` iff `now` is strictly below its deadline.  Time is
  passed explicitly to every operation, mirroring Date.now().

  External collaborators (the bad-words profanity filter, Pusher broadcast,
  the AI completion call) are treated as black boxes exactly as the spec
  prescribes: the profanity pipeline is an abstract pure function bundled in
  `Externals`, broadcasts have no observable effect on the store and are
  omitted, and the AI reply text is a parameter of the ryo-reply handler.
-/

namespace ChatRooms

/-- A stored Redis value together with its optional expiry deadline (ms). -/
structure Entry (α : Type) where
  value : α
  expiresAt : Option Nat
deriving Repr, DecidableEq

/-- A key is alive when it has no deadline or the deadline is in the future. -/
def Entry.live {α : Type} (e : Entry α) (now : Nat) : Bool :=
  match e.expiresAt with
  | none => true
  | some d => decide (now < d)

/-- A Redis key family modelled as an association list keyed by κ. -/
abbrev KV (κ α : Type) : Type := List (κ × Entry α)

/-- GET: first entry for the key, provided it has not expired. -/
def kvGet {κ α : Type} [DecidableEq κ] (now : Nat) : KV κ α → κ → Option α
  | [], _ => none
  | (k1, e) :: rest, k =>
    if k1 = k then (if e.live now then some e.value else none)
    else kvGet now rest k

/-- DEL: remove every entry for the key. -/
def kvDel {κ α : Type} [DecidableEq κ] (kv : KV κ α) (k : κ) : KV κ α :=
  kv.filter (fun p => decide (p.1 ≠ k))

/-- SET with optional EX deadline: overwrite any previous entry for the key. -/
def kvSet {κ α : Type} [DecidableEq κ] (kv : KV κ α) (k : κ) (v : α)
    (expiresAt : Option Nat) : KV κ α :=
  (k, ⟨v, expiresAt⟩) :: kvDel kv k

/-- EXPIRE: reset the deadline of the key, a no-op when the key is dead. -/
def kvExpire {κ α : Type} [DecidableEq κ] (now : Nat) (kv : KV κ α) (k : κ)
    (d : Nat) : KV κ α :=
  kv.map (fun p =>
    if p.1 = k ∧ p.2.live now = true then (p.1, ⟨p.2.value, some d⟩) else p)

/-- SCAN: the entries currently alive. -/
def kvLive {κ α : Type} (now : Nat) (kv : KV κ α) : KV κ α :=
  kv.filter (fun p => p.2.live now)

/-- A two-level key family (roomId, username) used for the burst counters,
which the source never scans; modelled as a plain function. -/
def M2 (α : Type) : Type := String → String → Option (Entry α)

def m2Get {α : Type} (now : Nat) (m : M2 α) (r u : String) : Option α :=
  match m r u with
  | some e => if e.live now then some e.value else none
  | none => none

def m2Set {α : Type} (m : M2 α) (r u : String) (v : α) (d : Option Nat) : M2 α :=
  fun r1 u1 => if r1 = r ∧ u1 = u then some ⟨v, d⟩ else m r1 u1

def m2Del {α : Type} (m : M2 α) (r u : String) : M2 α :=
  fun r1 u1 => if r1 = r ∧ u1 = u then none else m r1 u1

/-- EXPIRE on a two-level key: refresh the deadline only when alive. -/
def m2Expire {α : Type} (now : Nat) (m : M2 α) (r u : String) (d : Nat) : M2 α :=
  fun r1 u1 =>
    if r1 = r ∧ u1 = u then
      match m r u with
      | some e => if e.live now then some ⟨e.value, some d⟩ else some e
      | none => none
    else m r1 u1

/-- INCR: bump an alive counter keeping its TTL; a dead or missing counter
restarts at 1 with no TTL (Redis semantics). -/
def m2Incr (now : Nat) (m : M2 Nat) (r u : String) : Nat × M2 Nat :=
  match m r u with
  | some e =>
    if e.live now then (e.value + 1, m2Set m r u (e.value + 1) e.expiresAt)
    else (1, m2Set m r u 1 none)
  | none => (1, m2Set m r u 1 none)

-- ---------------------------------------------------------------------------
-- Constants from api/chat-rooms.js
-- ---------------------------------------------------------------------------

def USER_TTL_SECONDS : Nat := 7776000
def USER_EXPIRATION_TIME : Nat := 7776000
def TOKEN_GRACE_PERIOD : Nat := 86400 * 365
def ROOM_PRESENCE_TTL_SECONDS : Nat := 86400
def MAX_MESSAGE_LENGTH : Nat := 1000
def MAX_USERNAME_LENGTH : Nat := 30
def MIN_USERNAME_LENGTH : Nat := 3
def CHAT_BURST_SHORT_WINDOW_SECONDS : Nat := 10
def CHAT_BURST_SHORT_LIMIT : Nat := 3
def CHAT_BURST_LONG_WINDOW_SECONDS : Nat := 60
def CHAT_BURST_LONG_LIMIT : Nat := 20
def CHAT_MIN_INTERVAL_SECONDS : Nat := 2

-- ---------------------------------------------------------------------------
-- Input validation (USERNAME_REGEX, ROOM_ID_REGEX) and escapeHTML
-- ---------------------------------------------------------------------------

/-- Body of USERNAME_REGEX after the leading letter: every character is a
letter or digit, or a single hyphen/underscore followed by a letter or digit
(the lookahead), so no trailing or doubled separators. -/
def usernameBodyOk : List Char → Bool
  | [] => true
  | c :: rest =>
    if c.isAlphanum then usernameBodyOk rest
    else if c = '-' || c = '_' then
      match rest with
      | [] => false
      | d :: _ => d.isAlphanum && usernameBodyOk rest
    else false

/-- USERNAME_REGEX: 3-30 chars, starts with a letter, letters/digits with
single internal hyphen/underscore between alphanumerics (case-insensitive). -/
def isValidUsername (s : String) : Bool :=
  match s.data with
  | [] => false
  | c :: rest =>
    c.isAlpha && usernameBodyOk rest &&
      decide (MIN_USERNAME_LENGTH ≤ s.length) &&
      decide (s.length ≤ MAX_USERNAME_LENGTH)

/-- ROOM_ID_REGEX: nonempty, alphanumeric only. -/
def isValidRoomId (s : String) : Bool :=
  decide (s ≠ "") && s.data.all Char.isAlphanum

/-- escapeHTML character table from the source. -/
def escapeChar (c : Char) : String :=
  if c = '&' then "&amp;"
  else if c = '<' then "&lt;"
  else if c = '>' then "&gt;"
  else if c = Char.ofNat 34 then "&quot;"
  else if c = Char.ofNat 39 then "&#39;"
  else String.singleton c

/-- escapeHTML: replace the five HTML-significant characters by entities. -/
def escapeHTML (s : String) : String :=
  String.join (s.data.map escapeChar)

/-- JS String.prototype.toLowerCase, modelled per character over ASCII (the
only characters valid usernames and generated tokens can contain); defined
over the character list so that it evaluates by reduction. -/
def toLowerStr (s : String) : String :=
  ⟨s.data.map Char.toLower⟩

-- ---------------------------------------------------------------------------
-- Data model
-- ---------------------------------------------------------------------------

/-- A chat message as built by handleSendMessage / handleGenerateRyoReply. -/
structure ChatMessage where
  id : String
  roomId : String
  username : String
  content : String
  timestamp : Nat
deriving Repr, DecidableEq

/-- A room record (the source's `type` field is `rtype` here; it is absent in
some legacy records, hence Option). -/
structure Room where
  id : String
  name : String
  rtype : Option String
  members : Option (List String)
  userCount : Nat
  createdAt : Nat
deriving Repr, DecidableEq

/-- isPublicRoom from handleSendMessage: `!roomObj.type || roomObj.type ===
"public"` (an absent or empty type defaults to public). -/
def roomIsPublic (t : Option String) : Bool :=
  match t with
  | none => true
  | some v => v = "" || v = "public"

/-- The grace-period record stored at chat:token:last:{username}. -/
structure LastTokenData where
  token : String
  expiredAt : Nat
deriving Repr, DecidableEq

/-- The Redis keyspace of the service, one field per key family.
users: chat:users:{username} (value abstracted to lastActive; never expires).
userTokens: chat:token:user:{username}:{token} -> created-at.
flatTokens: chat:token:{token} -> username.
legacyTokens: chat:token:{username} -> token (legacy single-token keys).
lastTokens: chat:token:last:{username} -> grace record.
rooms: chat:room:{roomId}.  messages: chat:messages:{roomId}, newest first.
roomUsers: chat:room:users:{roomId} legacy membership sets.
presence: chat:presence:{roomId}:{username} -> timestamp.
shortCtr/longCtr/lastSent: rl:chat:b:{s,l,last}:{roomId}:{username}. -/
structure ChatState where
  users : String → Option Nat
  userTokens : KV (String × String) Nat
  flatTokens : KV String String
  legacyTokens : KV String String
  lastTokens : KV String LastTokenData
  rooms : String → Option Room
  messages : String → List ChatMessage
  roomUsers : String → List String
  presence : KV (String × String) Nat
  shortCtr : M2 Nat
  longCtr : M2 Nat
  lastSent : M2 Nat

/-- Result of validateAuth ({valid, expired}); a missing `expired` field in
the source's object is `false` here. -/
structure AuthResult where
  valid : Bool
  expired : Bool
deriving Repr, DecidableEq

/-- An HTTP handler outcome: a payload or an error response (status, body). -/
inductive ApiResult (α : Type) where
  | ok (value : α)
  | err (status : Nat) (message : String)
deriving Repr, DecidableEq

def ApiResult.isOk {α : Type} : ApiResult α → Bool
  | .ok _ => true
  | .err _ _ => false

/-- The external pure collaborators of the source file, per spec section 1:
`filterPU` is filterProfanityPreservingUrls built on the black-box bad-words
filter, `isProfane` is filter.isProfane. -/
structure Externals where
  filterPU : String → String
  isProfane : String → Bool

-- ---------------------------------------------------------------------------
-- Token Manager
-- ---------------------------------------------------------------------------

/-- storeToken: persist a freshly generated token in the per-identity
collection and the flat token->username mapping, both with a 90-day TTL. -/
def storeToken (s : ChatState) (username token : String) (now : Nat) : ChatState :=
  if token = "" then s
  else
    let u := (toLowerStr username)
    { s with
      userTokens :=
        kvSet s.userTokens (u, token) now (some (now + USER_EXPIRATION_TIME * 1000)),
      flatTokens :=
        kvSet s.flatTokens token u (some (now + USER_EXPIRATION_TIME * 1000)) }

/-- storeLastValidToken: write the grace-period record for the username with
the supplied expiry timestamp and TTL. -/
def storeLastValidToken (s : ChatState) (username token : String)
    (expiredAtMs ttlSeconds now : Nat) : ChatState :=
  { s with
    lastTokens :=
      kvSet s.lastTokens (toLowerStr username) ⟨token, expiredAtMs⟩
        (some (now + ttlSeconds * 1000)) }

/-- deleteToken: resolve the owner through the flat mapping and delete both
formats; when the flat mapping is gone, fall back to scanning every
user-scoped key holding this token. -/
def deleteToken (s : ChatState) (token : String) (now : Nat) : ChatState :=
  if token = "" then s
  else
    match kvGet now s.flatTokens token with
    | some u =>
      { s with
        flatTokens := kvDel s.flatTokens token,
        userTokens := kvDel s.userTokens ((toLowerStr u), token) }
    | none =>
      { s with
        flatTokens := kvDel s.flatTokens token,
        userTokens := s.userTokens.filter (fun p => decide (p.1.2 ≠ token)) }

/-- validateAuth: the four validation paths in source order — per-identity
collection (refresh TTLs), flat mapping (migrate), legacy single-token key
(migrate), and, when allowExpired, the grace-period record. -/
def validateAuth (s : ChatState) (username token : String) (allowExpired : Bool)
    (now : Nat) : AuthResult × ChatState :=
  if username = "" ∨ token = "" then (⟨false, false⟩, s)
  else
    let u := (toLowerStr username)
    if (kvGet now s.userTokens (u, token)).isSome then
      (⟨true, false⟩,
       { s with
         userTokens := kvExpire now s.userTokens (u, token) (now + USER_TTL_SECONDS * 1000),
         flatTokens := kvExpire now s.flatTokens token (now + USER_TTL_SECONDS * 1000) })
    else if (kvGet now s.flatTokens token).map toLowerStr = some u then
      (⟨true, false⟩,
       { s with
         flatTokens := kvExpire now s.flatTokens token (now + USER_TTL_SECONDS * 1000),
         userTokens := kvSet s.userTokens (u, token) now (some (now + USER_TTL_SECONDS * 1000)) })
    else if kvGet now s.legacyTokens u = some token then
      (⟨true, false⟩,
       { s with
         legacyTokens := kvExpire now s.legacyTokens u (now + USER_TTL_SECONDS * 1000),
         userTokens := kvSet s.userTokens (u, token) now (some (now + USER_TTL_SECONDS * 1000)) })
    else if allowExpired then
      match kvGet now s.lastTokens u with
      | some d =>
        if d.token = token && decide (now < d.expiredAt + TOKEN_GRACE_PERIOD * 1000) then
          (⟨true, true⟩, s)
        else (⟨false, false⟩, s)
      | none => (⟨false, false⟩, s)
    else (⟨false, false⟩, s)

/-- handleGenerateToken: requires the user record to exist; writes the legacy
single-token key, both multi-token formats, and the predictive grace record
scheduled at the token expiry with TTL lifetime + grace.  The random token is
a parameter of the model. -/
def handleGenerateToken (s : ChatState) (usernameInput newToken : String)
    (now : Nat) : ApiResult String × ChatState :=
  if usernameInput = "" then (.err 400 "Username is required", s)
  else
    let username := (toLowerStr usernameInput)
    match s.users username with
    | none => (.err 404 "User not found", s)
    | some _ =>
      let s1 := { s with
        legacyTokens :=
          kvSet s.legacyTokens username newToken (some (now + USER_EXPIRATION_TIME * 1000)) }
      let s2 := storeToken s1 username newToken now
      let s3 := storeLastValidToken s2 username newToken
        (now + USER_EXPIRATION_TIME * 1000) (USER_EXPIRATION_TIME + TOKEN_GRACE_PERIOD) now
      (.ok newToken, s3)

/-- handleRefreshToken: validate the old token with allowExpired, archive it
as the grace record (expiredAt = now, TTL = grace period), delete it, then
issue and store the new token. -/
def handleRefreshToken (s : ChatState) (usernameInput oldToken newToken : String)
    (now : Nat) : ApiResult String × ChatState :=
  if usernameInput = "" ∨ oldToken = "" then
    (.err 400 "Username and oldToken are required", s)
  else
    let username := (toLowerStr usernameInput)
    match s.users username with
    | none => (.err 404 "User not found", s)
    | some _ =>
      let vr := validateAuth s username oldToken true now
      if !vr.1.valid then (.err 401 "Invalid authentication token", vr.2)
      else
        let s1 := storeLastValidToken vr.2 username oldToken now TOKEN_GRACE_PERIOD now
        let s2 := deleteToken s1 oldToken now
        let s3 := { s2 with
          legacyTokens :=
            kvSet s2.legacyTokens username newToken (some (now + USER_EXPIRATION_TIME * 1000)) }
        let s4 := storeToken s3 username newToken now
        (.ok newToken, s4)

/-- deleteAllUserTokens: four deletion passes of the source — the per-identity
collection (also dropping the paired flat mappings), flat-only mappings whose
value is this username, the legacy single-token key, and the grace record.
The returned count adds the key deletions of every pass. -/
def deleteAllUserTokens (s : ChatState) (username : String) (now : Nat) :
    Nat × ChatState :=
  let u := (toLowerStr username)
  let userKeys := (kvLive now s.userTokens).filter (fun p => decide (p.1.1 = u))
  let s1 := { s with
    userTokens :=
      s.userTokens.filter (fun p => decide ¬(p.1.1 = u ∧ p.2.live now = true)),
    flatTokens :=
      s.flatTokens.filter (fun p => decide ¬(userKeys.any (fun q => q.1.2 = p.1) = true)) }
  let c1 := userKeys.length
  let oldKeys := (kvLive now s1.flatTokens).filter (fun p => decide ((toLowerStr p.2.value) = u))
  let s2 := { s1 with
    flatTokens :=
      s1.flatTokens.filter (fun p => decide ¬(oldKeys.any (fun q => q.1 = p.1) = true)) }
  let c2 := oldKeys.length
  let c3 := if (kvGet now s2.legacyTokens u).isSome then 1 else 0
  let s3 := { s2 with legacyTokens := kvDel s2.legacyTokens u }
  let c4 := if (kvGet now s3.lastTokens u).isSome then 1 else 0
  let s4 := { s3 with lastTokens := kvDel s3.lastTokens u }
  (c1 + c2 + c3 + c4, s4)

/-- handleLogoutAllDevices: delete every token and report the count. -/
def handleLogoutAllDevices (s : ChatState) (username : String) (now : Nat) :
    ApiResult Nat × ChatState :=
  let r := deleteAllUserTokens s username now
  (.ok r.1, r.2)

-- ---------------------------------------------------------------------------
-- Presence Tracker / Room Registry
-- ---------------------------------------------------------------------------

/-- Point-wise update of the room record store (redis.set / redis.del on a
chat:room:{roomId} key). -/
def setRoom (s : ChatState) (roomId : String) (v : Option Room) : ChatState :=
  { s with rooms := fun r => if r = roomId then v else s.rooms r }

/-- Point-wise update of a room's message list. -/
def setMessages (s : ChatState) (roomId : String) (v : List ChatMessage) : ChatState :=
  { s with messages := fun r => if r = roomId then v else s.messages r }

/-- Point-wise update of a legacy membership set. -/
def setRoomUsers (s : ChatState) (roomId : String) (v : List String) : ChatState :=
  { s with roomUsers := fun r => if r = roomId then v else s.roomUsers r }

/-- Point-wise update of a user record (abstracted to lastActive). -/
def setUserRecord (s : ChatState) (username : String) (v : Nat) : ChatState :=
  { s with users := fun k => if k = username then some v else s.users k }

/-- getActiveUsersInRoom: prefix scan over the live presence entries. -/
def activeUsersInRoom (now : Nat) (s : ChatState) (roomId : String) : List String :=
  ((kvLive now s.presence).filter (fun p => decide (p.1.1 = roomId))).map (fun p => p.1.2)

/-- refreshRoomPresence: extend the TTL only when the entry is alive. -/
def refreshRoomPresence (s : ChatState) (roomId username : String) (now : Nat) : ChatState :=
  { s with presence := (kvExpire now s.presence (roomId, username)
      (now + ROOM_PRESENCE_TTL_SECONDS * 1000)) }

/-- refreshRoomUserCount (with getActiveUsersAndPrune): recompute the live
occupancy, purge the legacy membership set, and write the count into the room
record. -/
def refreshRoomUserCount (s : ChatState) (roomId : String) (now : Nat) :
    Nat × ChatState :=
  let act := activeUsersInRoom now s roomId
  let s1 := setRoomUsers s roomId []
  let s2 :=
    match s1.rooms roomId with
    | some room => setRoom s1 roomId (some { room with userCount := act.length })
    | none => s1
  (act.length, s2)

/-- Purge a room entirely: record, message log, legacy set, and every presence
entry for the room (the source scans the live presence keys and pipelines the
deletes; removing dead entries too is observationally identical). -/
def purgeRoom (s : ChatState) (roomId : String) : ChatState :=
  let s1 := setRoom s roomId none
  let s2 := setMessages s1 roomId []
  let s3 := setRoomUsers s2 roomId []
  { s3 with presence := s3.presence.filter (fun p => decide (p.1.1 ≠ roomId)) }

/-- handleDeleteRoom: private rooms get leave semantics for the requesting
member (full purge when at most one member would remain); public rooms are
purged by the admin only. -/
def handleDeleteRoom (s : ChatState) (roomId usernameInput : String) (_now : Nat) :
    ApiResult Unit × ChatState :=
  match s.rooms roomId with
  | none => (.err 404 "Room not found", s)
  | some room =>
    if room.rtype = some "private" then
      if !(room.members.getD []).contains (toLowerStr usernameInput) then
        (.err 403 "Unauthorized - not a member of this room", s)
      else
        let updatedMembers :=
          (room.members.getD []).filter (fun m => decide (m ≠ (toLowerStr usernameInput)))
        if updatedMembers.length ≤ 1 then (.ok (), purgeRoom s roomId)
        else
          let room1 := { room with members := some updatedMembers,
                                   userCount := updatedMembers.length }
          let s1 := setRoom s roomId (some room1)
          (.ok (), { s1 with presence := kvDel s1.presence (roomId, (toLowerStr usernameInput)) })
    else
      if (toLowerStr usernameInput) ≠ "ryo" then
        (.err 403 "Unauthorized - admin access required for public rooms", s)
      else (.ok (), purgeRoom s roomId)

/-- handleLeaveRoom: delete the leaver's presence entry; only when it existed,
recompute occupancy and, for private rooms, shrink the member list — deleting
the room, its log, and the legacy set when at most one member would remain.
Note this deletion pipeline does not touch the other members' presence
entries, unlike handleDeleteRoom's purge. -/
def handleLeaveRoom (s : ChatState) (roomId usernameInput : String) (now : Nat) :
    ApiResult Unit × ChatState :=
  let username := (toLowerStr usernameInput)
  if roomId = "" ∨ username = "" then
    (.err 400 "Room ID and username are required", s)
  else if !isValidUsername username then
    (.err 400 "Invalid username: use 3-30 letters/numbers; \x27-\x27 or \x27_\x27 allowed between characters; no spaces or symbols", s)
  else if !isValidRoomId roomId then (.err 400 "Invalid room ID format", s)
  else
    match s.rooms roomId with
    | none => (.err 404 "Room not found", s)
    | some room =>
      let removed := (kvGet now s.presence (roomId, username)).isSome
      let s1 := { s with presence := kvDel s.presence (roomId, username) }
      if removed then
        let rc := refreshRoomUserCount s1 roomId now
        let userCount := rc.1
        let s2 := rc.2
        if room.rtype = some "private" then
          let updatedMembers :=
            match room.members with
            | some ms => ms.filter (fun m => decide (m ≠ username))
            | none => []
          if updatedMembers.length ≤ 1 then
            (.ok (), setRoomUsers (setMessages (setRoom s2 roomId none) roomId []) roomId [])
          else
            let room1 := { room with members := some updatedMembers,
                                     userCount := userCount }
            (.ok (), setRoom s2 roomId (some room1))
        else (.ok (), s2)
      else (.ok (), s1)

-- ---------------------------------------------------------------------------
-- Message Store / Rate Limiter
-- ---------------------------------------------------------------------------

/-- The chat burst limiter block of handleSendMessage: in public rooms, three
checks in order — short window (10s, cap 3, INCR then EXPIRE on first hit),
long window (60s, cap 20), and the minimum 2s interval against the stored
last-sent whole-second timestamp; passing all three records the new last-sent
timestamp.  Private rooms are exempt.  (JS computes delta as a possibly
negative number; a clock-skewed negative delta is below the minimum there and
the truncated Nat subtraction is 0 here, rejected in both.) -/
def chatBurstCheck (s : ChatState) (roomId username : String) (room : Room)
    (now : Nat) : Option String × ChatState :=
  if roomIsPublic room.rtype then
    let r1 := m2Incr now s.shortCtr roomId username
    let shortCount := r1.1
    let sc :=
      if shortCount = 1 then
        m2Expire now r1.2 roomId username (now + CHAT_BURST_SHORT_WINDOW_SECONDS * 1000)
      else r1.2
    let s1 := { s with shortCtr := sc }
    if shortCount > CHAT_BURST_SHORT_LIMIT then
      (some "You\x27re sending messages too quickly. Please slow down.", s1)
    else
      let r2 := m2Incr now s1.longCtr roomId username
      let longCount := r2.1
      let lc :=
        if longCount = 1 then
          m2Expire now r2.2 roomId username (now + CHAT_BURST_LONG_WINDOW_SECONDS * 1000)
        else r2.2
      let s2 := { s1 with longCtr := lc }
      if longCount > CHAT_BURST_LONG_LIMIT then
        (some "Too many messages in a short period. Please wait a moment.", s2)
      else
        let nowSeconds := now / 1000
        let intervalHit :=
          match m2Get now s2.lastSent roomId username with
          | some last => decide (nowSeconds - last < CHAT_MIN_INTERVAL_SECONDS)
          | none => false
        if intervalHit then
          (some "Please wait a moment before sending another message.", s2)
        else
          let ls := m2Set s2.lastSent roomId username nowSeconds
            (some (now + CHAT_BURST_LONG_WINDOW_SECONDS * 1000))
          (none, { s2 with lastSent := ls })
  else (none, s)

/-- ensureUserExists: profanity and format gates, then get-or-create (the
SETNX race loser re-reads; sequentially the create always succeeds). -/
def ensureUserExists (ext : Externals) (s : ChatState) (username : String)
    (now : Nat) : Except String ChatState :=
  if ext.isProfane username then .error "Username contains inappropriate language"
  else if username.length < MIN_USERNAME_LENGTH then
    .error "Username must be at least 3 characters"
  else if username.length > MAX_USERNAME_LENGTH then
    .error "Username must be 30 characters or less"
  else if !isValidUsername username then .error "Invalid username format"
  else
    match s.users username with
    | some _ => .ok s
    | none => .ok { s with users := fun k => if k = username then some now else s.users k }

/-- handleSendMessage: identifier validation, content sanitization, burst
limiting, user auto-creation, length check against the sanitized content,
duplicate suppression against the room's most recent message, then prepend
and trim to 100, bump lastActive, and refresh the sender's presence.  The
generated message id is a parameter of the model. -/
def handleSendMessage (ext : Externals) (s : ChatState)
    (roomId usernameInput rawContent msgId : String) (now : Nat) :
    ApiResult ChatMessage × ChatState :=
  let username := (toLowerStr usernameInput)
  if !isValidUsername username then
    (.err 400 "Invalid username: use 3-30 letters/numbers; \x27-\x27 or \x27_\x27 allowed between characters; no spaces or symbols", s)
  else if !isValidRoomId roomId then (.err 400 "Invalid room ID format", s)
  else if rawContent = "" then (.err 400 "Content is required", s)
  else
    let content := escapeHTML (ext.filterPU rawContent)
    match s.rooms roomId with
    | none => (.err 404 "Room not found", s)
    | some room =>
      let bc := chatBurstCheck s roomId username room now
      match bc.1 with
      | some msg => (.err 429 msg, bc.2)
      | none =>
        let s1 := bc.2
        match ensureUserExists ext s1 username now with
        | .error m =>
          if m = "Username contains inappropriate language" then (.err 400 m, s1)
          else (.err 500 "Failed to verify or create user", s1)
        | .ok s2 =>
          if content.length > MAX_MESSAGE_LENGTH then
            (.err 400 "Message exceeds maximum length of 1000 characters", s2)
          else
            let dup :=
              match (s2.messages roomId).head? with
              | some lastMsg =>
                decide (lastMsg.username = username) && decide (lastMsg.content = content)
              | none => false
            if dup then (.err 400 "Duplicate message detected", s2)
            else
              let message : ChatMessage := ⟨msgId, roomId, username, content, now⟩
              let s3 := setMessages s2 roomId ((message :: s2.messages roomId).take 100)
              let s4 := setUserRecord s3 username now
              (.ok message, refreshRoomPresence s4 roomId username now)

/-- handleGenerateRyoReply, after the external AI call: sanitize the reply
text, append it as a message from "ryo", and trim the log to 100. -/
def handleGenerateRyoReply (ext : Externals) (s : ChatState)
    (roomId prompt replyText msgId : String) (now : Nat) :
    ApiResult ChatMessage × ChatState :=
  if !isValidRoomId roomId then (.err 400 "Invalid room ID format", s)
  else if prompt = "" then (.err 400 "Prompt is required", s)
  else
    match s.rooms roomId with
    | none => (.err 404 "Room not found", s)
    | some _ =>
      let message : ChatMessage :=
        ⟨msgId, roomId, "ryo", escapeHTML (ext.filterPU replyText), now⟩
      (.ok message, setMessages s roomId ((message :: s.messages roomId).take 100))

/-- handleGetMessages: room-id format check (a failure surfaces as the
catch-all 500), existence check, then the last 20 stored messages.  The
handler receives no identity and performs no membership check. -/
def handleGetMessages (s : ChatState) (roomId : String) :
    ApiResult (List ChatMessage) :=
  if !isValidRoomId roomId then .err 500 "Failed to fetch messages"
  else if (s.rooms roomId).isSome then .ok ((s.messages roomId).take 20)
  else .err 404 "Room not found"

/-- The GET router's publicActions list: these actions skip validateAuth. -/
def publicGetActions : List String :=
  ["getRooms", "getMessages", "getBulkMessages", "getUsers", "verifyToken"]

/-- Whether the GET router authenticates the request before dispatching. -/
def getRequiresAuth (action : String) : Bool :=
  !(publicGetActions.contains action)

-- ---------------------------------------------------------------------------
-- Concrete example data used by witnesses and counterexamples
-- ---------------------------------------------------------------------------

/-- Identity profanity pipeline: no word is filtered, nothing is profane. -/
def ext0 : Externals :=
  ⟨fun s => s, fun _ => false⟩

/-- A small store: users alice and bob, a public room "general", a private
2-member room "priv1" with live presence for both members. -/
def baseState : ChatState where
  users := fun k => if k = "alice" ∨ k = "bob" then some 0 else none
  userTokens := []
  flatTokens := []
  legacyTokens := []
  lastTokens := []
  rooms := fun r =>
    if r = "general" then some ⟨"general", "general", some "public", none, 0, 0⟩
    else if r = "priv1" then
      some ⟨"priv1", "@alice, @bob", some "private", some ["alice", "bob"], 2, 0⟩
    else none
  messages := fun _ => []
  roomUsers := fun _ => []
  presence := [(("priv1", "alice"), ⟨0, some 86400000⟩),
               (("priv1", "bob"), ⟨0, some 86400000⟩)]
  shortCtr := fun _ _ => none
  longCtr := fun _ _ => none
  lastSent := fun _ _ => none

/-- A user whose only credential is the legacy single-token key
chat:token:{username} -> token (no per-identity entry, no flat mapping). -/
def legacyOnlyState : ChatState where
  users := fun k => if k = "alice" then some 0 else none
  userTokens := []
  flatTokens := []
  legacyTokens := [("alice", ⟨"tok1", none⟩)]
  lastTokens := []
  rooms := fun _ => none
  messages := fun _ => []
  roomUsers := fun _ => []
  presence := []
  shortCtr := fun _ _ => none
  longCtr := fun _ _ => none
  lastSent := fun _ _ => none

/-- Like legacyOnlyState but with the token held in the per-identity
collection, the layout every current issuance path writes. -/
def collectionTokenState : ChatState :=
  { legacyOnlyState with
    legacyTokens := [],
    userTokens := [(("alice", "tok1"), ⟨0, none⟩)],
    flatTokens := [("tok1", ⟨"alice", none⟩)] }

/-- baseState with one stored message in the public room "general". -/
def generalOneMsgState : ChatState :=
  { baseState with
    messages := fun r =>
      if r = "general" then [⟨"m0", "general", "alice", "hi", 0⟩] else [] }

/-- A store containing just the user record for alice. -/
def aliceOnlyState : ChatState :=
  { legacyOnlyState with legacyTokens := [] }

/-- The room record of "general" in baseState. -/
def generalRoom : Room :=
  ⟨"general", "general", some "public", none, 0, 0⟩

/-- The room record of "priv1" in baseState. -/
def priv1Room : Room :=
  ⟨"priv1", "@alice, @bob", some "private", some ["alice", "bob"], 2, 0⟩

/-- baseState with alice's short-window counter at the cap. -/
def burstShort3State : ChatState :=
  { baseState with shortCtr := m2Set baseState.shortCtr "general" "alice" 3 none }

/-- baseState with alice's long-window counter at the cap. -/
def burstLong20State : ChatState :=
  { baseState with longCtr := m2Set baseState.longCtr "general" "alice" 20 none }

/-- baseState with a recorded last-sent second for alice in "general". -/
def lastSentState (v : Nat) : ChatState :=
  { baseState with lastSent := m2Set baseState.lastSent "general" "alice" v none }

-- ---------------------------------------------------------------------------
-- Store lemmas
-- ---------------------------------------------------------------------------

theorem Entry.live_mono {α : Type} (e : Entry α) {t1 t2 : Nat} (h : t1 ≤ t2)
    (hl : e.live t2 = true) : e.live t1 = true := by
  cases e with
  | mk v d =>
    cases d with
    | none => simp [Entry.live]
    | some dl =>
      simp [Entry.live] at hl ⊢
      omega

theorem kvGet_filter_excluded {κ α : Type} [DecidableEq κ] (now : Nat)
    (kv : KV κ α) (p : κ × Entry α → Bool) (k : κ)
    (h : ∀ e : Entry α, p (k, e) = false) :
    kvGet now (kv.filter p) k = none := by
  induction kv with
  | nil => rfl
  | cons hd tl ih =>
    by_cases hk : hd.1 = k
    · have : p hd = false := by
        have := h hd.2
        cases hd
        simp_all
      simp [List.filter, this, ih]
    · by_cases hp : p hd = true
      · simp [List.filter, hp, kvGet, hk, ih]
      · simp [List.filter, Bool.eq_false_iff.mpr hp, ih]

theorem kvGet_filter_kept {κ α : Type} [DecidableEq κ] (now : Nat)
    (kv : KV κ α) (p : κ × Entry α → Bool) (k : κ)
    (h : ∀ e : Entry α, p (k, e) = true) :
    kvGet now (kv.filter p) k = kvGet now kv k := by
  induction kv with
  | nil => rfl
  | cons hd tl ih =>
    by_cases hk : hd.1 = k
    · have hp : p hd = true := by
        have := h hd.2
        cases hd
        simp_all
      simp [List.filter, hp, kvGet, hk, ih]
    · by_cases hp : p hd = true
      · simp [List.filter, hp, kvGet, hk, ih]
      · simp [List.filter, Bool.eq_false_iff.mpr hp, ih, kvGet, hk]

theorem kvGet_kvDel_self {κ α : Type} [DecidableEq κ] (now : Nat)
    (kv : KV κ α) (k : κ) : kvGet now (kvDel kv k) k = none := by
  apply kvGet_filter_excluded
  intro e
  simp

theorem kvGet_kvDel_ne {κ α : Type} [DecidableEq κ] (now : Nat)
    (kv : KV κ α) (k k1 : κ) (h : k1 ≠ k) :
    kvGet now (kvDel kv k) k1 = kvGet now kv k1 := by
  apply kvGet_filter_kept
  intro e
  simp [h]

theorem kvGet_kvSet_self {κ α : Type} [DecidableEq κ] (now : Nat)
    (kv : KV κ α) (k : κ) (v : α) (d : Option Nat) :
    kvGet now (kvSet kv k v d) k =
      if (Entry.mk v d).live now then some v else none := by
  simp [kvSet, kvGet]

theorem kvGet_kvSet_ne {κ α : Type} [DecidableEq κ] (now : Nat)
    (kv : KV κ α) (k k1 : κ) (v : α) (d : Option Nat) (h : k1 ≠ k) :
    kvGet now (kvSet kv k v d) k1 = kvGet now kv k1 := by
  simp [kvSet, kvGet, Ne.symm h, kvGet_kvDel_ne now kv k k1 h]

theorem kvGet_kvExpire_ne {κ α : Type} [DecidableEq κ] (now t d : Nat)
    (kv : KV κ α) (k k1 : κ) (h : k1 ≠ k) :
    kvGet t (kvExpire now kv k d) k1 = kvGet t kv k1 := by
  induction kv with
  | nil => rfl
  | cons hd tl ih =>
    obtain ⟨k0, e0⟩ := hd
    simp only [kvExpire, List.map_cons] at ih ⊢
    by_cases hk : k0 = k
    · have hne : k0 ≠ k1 := by rw [hk]; exact Ne.symm h
      by_cases hl : e0.live now = true
      · rw [if_pos ⟨hk, hl⟩]
        simp [kvGet, hne, ih]
      · rw [if_neg (fun hc => hl hc.2)]
        simp [kvGet, hne, ih]
    · rw [if_neg (fun hc => hk hc.1)]
      by_cases hself : k0 = k1
      · simp [kvGet, hself]
      · simp [kvGet, hself, ih]

theorem kvGet_kvExpire_self_now {κ α : Type} [DecidableEq κ] (now d : Nat)
    (kv : KV κ α) (k : κ) (hd : now < d) :
    kvGet now (kvExpire now kv k d) k = kvGet now kv k := by
  induction kv with
  | nil => rfl
  | cons hde tl ih =>
    obtain ⟨k0, e0⟩ := hde
    simp only [kvExpire, List.map_cons] at ih ⊢
    by_cases hk : k0 = k
    · by_cases hl : e0.live now = true
      · rw [if_pos ⟨hk, hl⟩]
        simp only [Entry.live] at hl
        simp [kvGet, hk, Entry.live, hd, hl]
      · rw [if_neg (fun hc => hl hc.2)]
        simp [kvGet, hk, hl]
    · rw [if_neg (fun hc => hk hc.1)]
      simp [kvGet, hk, ih]

theorem kvGet_eq_none_of_all_dead {κ α : Type} [DecidableEq κ] (t : Nat)
    (kv : KV κ α) (k : κ)
    (h : ∀ e : Entry α, (k, e) ∈ kv → e.live t = false) :
    kvGet t kv k = none := by
  induction kv with
  | nil => rfl
  | cons hd tl ih =>
    obtain ⟨k0, e0⟩ := hd
    by_cases hk : k0 = k
    · subst hk
      have hdead := h e0 (List.mem_cons_self _ _)
      simp [kvGet, hdead]
    · simp [kvGet, hk]
      exact ih fun e he => h e (List.mem_cons_of_mem _ he)

theorem kvGet_some_mem {κ α : Type} [DecidableEq κ] (t : Nat)
    (kv : KV κ α) (k : κ) (v : α) (h : kvGet t kv k = some v) :
    ∃ e : Entry α, (k, e) ∈ kv ∧ e.value = v ∧ e.live t = true := by
  induction kv with
  | nil => simp [kvGet] at h
  | cons hd tl ih =>
    obtain ⟨k0, e0⟩ := hd
    by_cases hk : k0 = k
    · subst hk
      by_cases hl : e0.live t = true
      · simp [kvGet, hl] at h
        exact ⟨e0, List.mem_cons_self _ _, h, hl⟩
      · simp [kvGet, hl] at h
    · simp [kvGet, hk] at h
      obtain ⟨e, hmem, hv, hlive⟩ := ih h
      exact ⟨e, List.mem_cons_of_mem _ hmem, hv, hlive⟩

theorem char_toNat_ofNat_valid {n : Nat} (h : n < 0xd800) :
    (Char.ofNat n).toNat = n := by
  rw [Char.ofNat, dif_pos (Or.inl h)]
  simp [Char.ofNatAux, Char.toNat, UInt32.toNat]

theorem char_toLower_idem (c : Char) : c.toLower.toLower = c.toLower := by
  by_cases h : c.toNat ≥ 65 ∧ c.toNat ≤ 90
  · have h1 : c.toLower = Char.ofNat (c.toNat + 32) := by
      simp only [Char.toLower]
      rw [if_pos h]
    have ht : (Char.ofNat (c.toNat + 32)).toNat = c.toNat + 32 :=
      char_toNat_ofNat_valid (by omega)
    rw [h1]
    simp only [Char.toLower]
    rw [if_neg (by rw [ht]; omega)]
  · have h1 : c.toLower = c := by
      simp only [Char.toLower]
      rw [if_neg h]
    rw [h1, h1]

/-- JS toLowerCase is idempotent; the source lowercases usernames both at the
handler boundary and inside the storage helpers, and this lemma identifies
the two spellings. -/
theorem toLowerStr_idem (s : String) : toLowerStr (toLowerStr s) = toLowerStr s := by
  show (⟨((s.data.map Char.toLower)).map Char.toLower⟩ : String)
      = ⟨s.data.map Char.toLower⟩
  rw [List.map_map]
  apply congrArg
  exact List.map_congr_left (fun c _ => by
    simp only [Function.comp_apply, char_toLower_idem c])

theorem isValidUsername_ne_empty {s : String} (h : isValidUsername s = true) :
    s ≠ "" := by
  intro he
  rw [he] at h
  simp [isValidUsername] at h

theorem isValidRoomId_ne_empty {s : String} (h : isValidRoomId s = true) :
    s ≠ "" := by
  unfold isValidRoomId at h
  simp only [Bool.and_eq_true, decide_eq_true_eq] at h
  exact h.1

theorem two_member_filter_le_one (m1 m2 u : String) (h : u = m1 ∨ u = m2) :
    (([m1, m2] : List String).filter (fun m => decide (m ≠ u))).length ≤ 1 := by
  by_cases h1 : m1 = u
  · by_cases h2 : m2 = u
    · simp [List.filter_cons, h1, h2]
    · simp [List.filter_cons, h1, h2]
  · by_cases h2 : m2 = u
    · simp [List.filter_cons, h1, h2]
    · exfalso
      rcases h with h | h
      · exact h1 h.symm
      · exact h2 h.symm

theorem isValidUsername_length {s : String} (h : isValidUsername s = true) :
    MIN_USERNAME_LENGTH ≤ s.length ∧ s.length ≤ MAX_USERNAME_LENGTH := by
  unfold isValidUsername at h
  cases hd : s.data with
  | nil => rw [hd] at h; simp at h
  | cons c rest =>
    rw [hd] at h
    simp only [Bool.and_eq_true, decide_eq_true_eq] at h
    exact ⟨h.1.2, h.2⟩

theorem m2Incr_get (now : Nat) (m : M2 Nat) (r u : String) :
    m2Get now (m2Incr now m r u).2 r u
      = some ((m2Get now m r u).getD 0 + 1) := by
  cases hm : m r u with
  | none => simp [m2Incr, m2Get, m2Set, hm, Entry.live]
  | some e =>
    obtain ⟨v, d⟩ := e
    cases d with
    | none => simp [m2Incr, m2Get, m2Set, hm, Entry.live]
    | some dl =>
      by_cases hl : now < dl
      · simp [m2Incr, m2Get, m2Set, hm, Entry.live, hl]
      · simp [m2Incr, m2Get, m2Set, hm, Entry.live, hl]

theorem m2Incr_val (now : Nat) (m : M2 Nat) (r u : String) :
    (m2Incr now m r u).1 = (m2Get now m r u).getD 0 + 1 := by
  cases hm : m r u with
  | none => simp [m2Incr, m2Get, hm]
  | some e =>
    obtain ⟨v, d⟩ := e
    cases d with
    | none => simp [m2Incr, m2Get, hm, Entry.live]
    | some dl =>
      by_cases hl : now < dl
      · simp [m2Incr, m2Get, hm, Entry.live, hl]
      · simp [m2Incr, m2Get, hm, Entry.live, hl]

theorem m2Get_m2Expire_now {α : Type} (now d : Nat) (m : M2 α) (r u : String)
    (hd : now < d) :
    m2Get now (m2Expire now m r u d) r u = m2Get now m r u := by
  cases hm : m r u with
  | none => simp [m2Get, m2Expire, hm]
  | some e =>
    obtain ⟨v, dd⟩ := e
    cases dd with
    | none => simp [m2Get, m2Expire, hm, Entry.live, hd]
    | some dl =>
      by_cases hl : now < dl
      · simp [m2Get, m2Expire, hm, Entry.live, hl, hd]
      · simp [m2Get, m2Expire, hm, Entry.live, hl]

/-- validateAuth either leaves the flat token mapping alone or refreshes the
TTL of the very token it validated. -/
theorem validateAuth_flatTokens_cases (s : ChatState) (u tok : String)
    (ae : Bool) (now : Nat) :
    (validateAuth s u tok ae now).2.flatTokens = s.flatTokens ∨
    (validateAuth s u tok ae now).2.flatTokens
      = kvExpire now s.flatTokens tok (now + USER_TTL_SECONDS * 1000) := by
  unfold validateAuth
  dsimp only
  split
  · exact Or.inl rfl
  split
  · exact Or.inr rfl
  split
  · exact Or.inr rfl
  split
  · exact Or.inl rfl
  split
  · split
    · split
      · exact Or.inl rfl
      · exact Or.inl rfl
    · exact Or.inl rfl
  · exact Or.inl rfl

/-- validateAuth with every token path exhausted reduces to the grace-period
branch. -/
theorem validateAuth_eval (s4 : ChatState) (usernameInput tok : String)
    (t : Nat) (ae : Bool)
    (husern : usernameInput ≠ "") (htok : tok ≠ "")
    (h1 : kvGet t s4.userTokens (toLowerStr usernameInput, tok) = none)
    (h2 : kvGet t s4.flatTokens tok = none)
    (h3 : kvGet t s4.legacyTokens (toLowerStr usernameInput) ≠ some tok) :
    validateAuth s4 usernameInput tok ae t =
      (if ae then
        match kvGet t s4.lastTokens (toLowerStr usernameInput) with
        | some d =>
          if d.token = tok && decide (t < d.expiredAt + TOKEN_GRACE_PERIOD * 1000)
          then (⟨true, true⟩, s4) else (⟨false, false⟩, s4)
        | none => (⟨false, false⟩, s4)
       else (⟨false, false⟩, s4)) := by
  unfold validateAuth
  rw [if_neg (by simp [husern, htok])]
  simp only [h1, h2, Option.isSome_none, Option.map_none]
  rw [if_neg (by simp), if_neg (by simp), if_neg h3]

theorem storeToken_eq (s : ChatState) (u tok : String) (now : Nat) (h : tok ≠ "") :
    storeToken s u tok now = { s with
      userTokens := kvSet s.userTokens (toLowerStr u, tok) now
        (some (now + USER_EXPIRATION_TIME * 1000)),
      flatTokens := kvSet s.flatTokens tok (toLowerStr u)
        (some (now + USER_EXPIRATION_TIME * 1000)) } := by
  unfold storeToken
  rw [if_neg h]

theorem deleteToken_eq_some (s : ChatState) (tok v : String) (now : Nat)
    (h : tok ≠ "") (hv : kvGet now s.flatTokens tok = some v) :
    deleteToken s tok now = { s with
      flatTokens := kvDel s.flatTokens tok,
      userTokens := kvDel s.userTokens (toLowerStr v, tok) } := by
  unfold deleteToken
  rw [if_neg h]
  simp only [hv]

theorem deleteToken_eq_none (s : ChatState) (tok : String) (now : Nat)
    (h : tok ≠ "") (hv : kvGet now s.flatTokens tok = none) :
    deleteToken s tok now = { s with
      flatTokens := kvDel s.flatTokens tok,
      userTokens := s.userTokens.filter (fun p => decide (p.1.2 ≠ tok)) } := by
  unfold deleteToken
  rw [if_neg h]
  simp only [hv]

theorem refreshRoomUserCount_presence (s : ChatState) (roomId : String)
    (now : Nat) :
    (refreshRoomUserCount s roomId now).2.presence = s.presence := by
  unfold refreshRoomUserCount
  dsimp only
  split <;> simp [setRoom, setRoomUsers]

theorem refreshRoomUserCount_messages (s : ChatState) (roomId : String)
    (now : Nat) :
    (refreshRoomUserCount s roomId now).2.messages = s.messages := by
  unfold refreshRoomUserCount
  dsimp only
  split <;> simp [setRoom, setRoomUsers]

/-- The burst-limiter block only touches the three rate-limit counter
families; every other field of the state is unchanged. -/
theorem chatBurstCheck_state (s : ChatState) (roomId u : String) (room : Room)
    (now : Nat) :
    (chatBurstCheck s roomId u room now).2.messages = s.messages ∧
    (chatBurstCheck s roomId u room now).2.rooms = s.rooms ∧
    (chatBurstCheck s roomId u room now).2.users = s.users ∧
    (chatBurstCheck s roomId u room now).2.presence = s.presence ∧
    (chatBurstCheck s roomId u room now).2.userTokens = s.userTokens ∧
    (chatBurstCheck s roomId u room now).2.flatTokens = s.flatTokens ∧
    (chatBurstCheck s roomId u room now).2.legacyTokens = s.legacyTokens ∧
    (chatBurstCheck s roomId u room now).2.lastTokens = s.lastTokens := by
  simp only [chatBurstCheck]
  repeat' split
  all_goals simp

/-- ensureUserExists only (possibly) creates the user record. -/
theorem ensureUserExists_ok_state (ext : Externals) (s s2 : ChatState)
    (u : String) (now : Nat) (h : ensureUserExists ext s u now = .ok s2) :
    s2.messages = s.messages ∧ s2.rooms = s.rooms ∧ s2.presence = s.presence ∧
    s2.shortCtr = s.shortCtr ∧ s2.longCtr = s.longCtr ∧
    s2.lastSent = s.lastSent := by
  simp only [ensureUserExists] at h
  repeat' split at h
  all_goals simp_all
  all_goals subst h
  all_goals simp

/-- Characterization of a successful handleSendMessage run: the message that
was stored, the trimmed log, the untouched fields, and the validations the
run must have passed. -/
theorem sendMessage_ok_spec (ext : Externals) (s : ChatState)
    (roomId uIn raw id : String) (now : Nat) (m : ChatMessage) (st : ChatState)
    (h : handleSendMessage ext s roomId uIn raw id now = (.ok m, st)) :
    m = ⟨id, roomId, toLowerStr uIn, escapeHTML (ext.filterPU raw), now⟩ ∧
    st.messages roomId = (m :: s.messages roomId).take 100 ∧
    (∀ r, r ≠ roomId → st.messages r = s.messages r) ∧
    st.rooms = s.rooms ∧
    st.users (toLowerStr uIn) = some now ∧
    isValidUsername (toLowerStr uIn) = true ∧
    isValidRoomId roomId = true ∧
    raw ≠ "" ∧
    (escapeHTML (ext.filterPU raw)).length ≤ MAX_MESSAGE_LENGTH ∧
    ext.isProfane (toLowerStr uIn) = false := by
  simp only [handleSendMessage] at h
  split at h
  · simp at h
  split at h
  · simp at h
  split at h
  · simp at h
  rename_i huser hroom hraw
  split at h
  · simp at h
  rename_i room hrooms
  split at h
  · simp at h
  rename_i hbnone
  split at h
  · rename_i msg hens
    split at h <;> simp at h
  rename_i s2 hens
  split at h
  · simp at h
  rename_i hlen
  split at h
  · simp at h
  rename_i hdup
  obtain ⟨hm, hst⟩ := Prod.ext_iff.mp h
  injection hm with hm
  subst hm
  subst hst
  have hprof : ext.isProfane (toLowerStr uIn) = false := by
    cases hp : ext.isProfane (toLowerStr uIn)
    · rfl
    · simp [ensureUserExists, hp] at hens
  have hb := chatBurstCheck_state s roomId (toLowerStr uIn) room now
  have he := ensureUserExists_ok_state ext _ s2 (toLowerStr uIn) now hens
  refine ⟨rfl, ?_, ?_, ?_, ?_, ?_, ?_, ?_, ?_, hprof⟩
  · simp [refreshRoomPresence, setUserRecord, setMessages, he.1, hb.1]
  · intro r hr
    simp [refreshRoomPresence, setUserRecord, setMessages, hr, he.1, hb.1]
  · simp [refreshRoomPresence, setUserRecord, setMessages, he.2.1, hb.2.1]
  · simp [refreshRoomPresence, setUserRecord, setMessages]
  · simpa using huser
  · simpa using hroom
  · exact hraw
  · exact Nat.le_of_not_lt hlen

/-- When the burst limiter admits a public-room message, it has incremented
both window counters by one (INCR runs before every later check). -/
theorem chatBurstCheck_none_incr (s : ChatState) (roomId u : String)
    (room : Room) (now : Nat)
    (hpub : roomIsPublic room.rtype = true)
    (h : (chatBurstCheck s roomId u room now).1 = none) :
    m2Get now (chatBurstCheck s roomId u room now).2.shortCtr roomId u
      = some ((m2Get now s.shortCtr roomId u).getD 0 + 1) ∧
    m2Get now (chatBurstCheck s roomId u room now).2.longCtr roomId u
      = some ((m2Get now s.longCtr roomId u).getD 0 + 1) := by
  simp only [chatBurstCheck, hpub, if_true] at h ⊢
  split at h
  · simp at h
  rename_i hshort
  split at h
  · simp at h
  rename_i hlong
  split at h
  · simp at h
  rename_i hint
  rw [if_neg hshort, if_neg hlong, if_neg hint]
  refine ⟨?_, ?_⟩
  · show m2Get now (if (m2Incr now s.shortCtr roomId u).1 = 1
        then m2Expire now (m2Incr now s.shortCtr roomId u).2 roomId u
          (now + CHAT_BURST_SHORT_WINDOW_SECONDS * 1000)
        else (m2Incr now s.shortCtr roomId u).2) roomId u
      = some ((m2Get now s.shortCtr roomId u).getD 0 + 1)
    split
    · rw [m2Get_m2Expire_now _ _ _ _ _
        (by unfold CHAT_BURST_SHORT_WINDOW_SECONDS; omega)]
      exact m2Incr_get now s.shortCtr roomId u
    · exact m2Incr_get now s.shortCtr roomId u
  · show m2Get now (if (m2Incr now s.longCtr roomId u).1 = 1
        then m2Expire now (m2Incr now s.longCtr roomId u).2 roomId u
          (now + CHAT_BURST_LONG_WINDOW_SECONDS * 1000)
        else (m2Incr now s.longCtr roomId u).2) roomId u
      = some ((m2Get now s.longCtr roomId u).getD 0 + 1)
    split
    · rw [m2Get_m2Expire_now _ _ _ _ _
        (by unfold CHAT_BURST_LONG_WINDOW_SECONDS; omega)]
      exact m2Incr_get now s.longCtr roomId u
    · exact m2Incr_get now s.longCtr roomId u

/-- Every rejection message the burst limiter can produce. -/
theorem chatBurstCheck_some_msgs (s : ChatState) (roomId u : String)
    (room : Room) (now : Nat) (msg : String)
    (h : (chatBurstCheck s roomId u room now).1 = some msg) :
    msg = "You\x27re sending messages too quickly. Please slow down." ∨
    msg = "Too many messages in a short period. Please wait a moment." ∨
    msg = "Please wait a moment before sending another message." := by
  simp only [chatBurstCheck] at h
  repeat' split at h
  all_goals simp_all

/-- A rejected handleSendMessage run never touches the message logs or the
room records. -/
theorem sendMessage_err_state (ext : Externals) (s : ChatState)
    (roomId uIn raw id : String) (now : Nat) (c : Nat) (emsg : String)
    (st : ChatState)
    (h : handleSendMessage ext s roomId uIn raw id now = (.err c emsg, st)) :
    st.messages = s.messages ∧ st.rooms = s.rooms := by
  simp only [handleSendMessage] at h
  split at h
  · obtain ⟨_, hst⟩ := Prod.ext_iff.mp h
    subst hst
    exact ⟨rfl, rfl⟩
  split at h
  · obtain ⟨_, hst⟩ := Prod.ext_iff.mp h
    subst hst
    exact ⟨rfl, rfl⟩
  split at h
  · obtain ⟨_, hst⟩ := Prod.ext_iff.mp h
    subst hst
    exact ⟨rfl, rfl⟩
  split at h
  · obtain ⟨_, hst⟩ := Prod.ext_iff.mp h
    subst hst
    exact ⟨rfl, rfl⟩
  rename_i room hrooms
  have hb := chatBurstCheck_state s roomId (toLowerStr uIn) room now
  split at h
  · obtain ⟨_, hst⟩ := Prod.ext_iff.mp h
    subst hst
    exact ⟨hb.1, hb.2.1⟩
  rename_i hbnone
  split at h
  · rename_i msg hens
    split at h
    · obtain ⟨_, hst⟩ := Prod.ext_iff.mp h
      subst hst
      exact ⟨hb.1, hb.2.1⟩
    · obtain ⟨_, hst⟩ := Prod.ext_iff.mp h
      subst hst
      exact ⟨hb.1, hb.2.1⟩
  rename_i s2 hens
  have he := ensureUserExists_ok_state ext _ s2 (toLowerStr uIn) now hens
  split at h
  · obtain ⟨_, hst⟩ := Prod.ext_iff.mp h
    subst hst
    exact ⟨he.1.trans hb.1, he.2.1.trans hb.2.1⟩
  split at h
  · obtain ⟨_, hst⟩ := Prod.ext_iff.mp h
    subst hst
    exact ⟨he.1.trans hb.1, he.2.1.trans hb.2.1⟩
  · simp at h

/-- Characterization of a successful handleGenerateRyoReply run. -/
theorem ryoReply_ok_spec (ext : Externals) (s : ChatState)
    (roomId prompt reply id : String) (now : Nat) (m : ChatMessage)
    (st : ChatState)
    (h : handleGenerateRyoReply ext s roomId prompt reply id now = (.ok m, st)) :
    m = ⟨id, roomId, "ryo", escapeHTML (ext.filterPU reply), now⟩ ∧
    st.messages roomId = (m :: s.messages roomId).take 100 ∧
    (∀ r, r ≠ roomId → st.messages r = s.messages r) := by
  simp only [handleGenerateRyoReply] at h
  split at h
  · simp at h
  split at h
  · simp at h
  split at h
  · simp at h
  obtain ⟨hm, hst⟩ := Prod.ext_iff.mp h
  injection hm with hm
  subst hm
  subst hst
  refine ⟨rfl, by simp [setMessages], fun r hr => by simp [setMessages, hr]⟩

/-- A rejected handleGenerateRyoReply run returns the state unchanged. -/
theorem ryoReply_err_state (ext : Externals) (s : ChatState)
    (roomId prompt reply id : String) (now : Nat) (c : Nat) (emsg : String)
    (st : ChatState)
    (h : handleGenerateRyoReply ext s roomId prompt reply id now = (.err c emsg, st)) :
    st = s := by
  simp only [handleGenerateRyoReply] at h
  split at h
  · exact (Prod.ext_iff.mp h).2.symm
  split at h
  · exact (Prod.ext_iff.mp h).2.symm
  split at h
  · exact (Prod.ext_iff.mp h).2.symm
  · simp at h

-- ---------------------------------------------------------------------------
-- Claim C1
-- ---------------------------------------------------------------------------

/-- C1: for every username matching the accepted pattern, validating a token
immediately after handleGenerateToken stored it succeeds: validateAuth
returns valid = true, expired = false. -/
theorem generateToken_then_validateAuth (s : ChatState)
    (usernameInput tok : String) (now : Nat)
    (huser : isValidUsername usernameInput = true)
    (hexists : (s.users (toLowerStr usernameInput)).isSome = true)
    (htok : tok ≠ "") :
    (validateAuth (handleGenerateToken s usernameInput tok now).2
      usernameInput tok false now).1 = ⟨true, false⟩ := by
  have hne : usernameInput ≠ "" := isValidUsername_ne_empty huser
  obtain ⟨la, hla⟩ := Option.isSome_iff_exists.mp hexists
  have hidem : toLowerStr (toLowerStr usernameInput) = toLowerStr usernameInput :=
    toLowerStr_idem _
  simp only [handleGenerateToken, if_neg hne, hla]
  simp only [storeToken, storeLastValidToken, if_neg htok]
  simp [validateAuth, hne, htok, hidem, kvGet_kvSet_self, Entry.live,
    USER_EXPIRATION_TIME]

/-- Witness for C1 at a concrete state. -/
theorem generateToken_then_validateAuth_witness :
    (validateAuth
      (handleGenerateToken
        { users := fun k => if k = "alice" then some 0 else none,
          userTokens := [], flatTokens := [], legacyTokens := [],
          lastTokens := [], rooms := fun _ => none, messages := fun _ => [],
          roomUsers := fun _ => [], presence := [],
          shortCtr := fun _ _ => none, longCtr := fun _ _ => none,
          lastSent := fun _ _ => none } "alice" "tokA" 0).2
      "alice" "tokA" false 0).1 = ⟨true, false⟩ :=
  generateToken_then_validateAuth _ "alice" "tokA" 0 (by decide) (by decide)
    (by decide)

-- ---------------------------------------------------------------------------
-- Claim C6
-- ---------------------------------------------------------------------------

/-- C6: the stored per-room message log never exceeds 100 entries; every
append — a user send or the automated ryo reply — trims the log to the most
recent 100 messages, and every outcome of either handler preserves the
100-entry bound on all rooms. -/
theorem message_log_never_exceeds_100 :
    (∀ ext s roomId uIn raw id now m st,
        handleSendMessage ext s roomId uIn raw id now = (.ok m, st) →
        st.messages roomId = (m :: s.messages roomId).take 100 ∧
        (st.messages roomId).length ≤ 100) ∧
    (∀ ext s roomId prompt reply id now m st,
        handleGenerateRyoReply ext s roomId prompt reply id now = (.ok m, st) →
        st.messages roomId = (m :: s.messages roomId).take 100 ∧
        (st.messages roomId).length ≤ 100) ∧
    (∀ ext s roomId uIn raw id now,
        (∀ r, (s.messages r).length ≤ 100) →
        ∀ r, ((handleSendMessage ext s roomId uIn raw id now).2.messages r).length ≤ 100) ∧
    (∀ ext s roomId prompt reply id now,
        (∀ r, (s.messages r).length ≤ 100) →
        ∀ r, ((handleGenerateRyoReply ext s roomId prompt reply id now).2.messages r).length ≤ 100) := by
  refine ⟨?_, ?_, ?_, ?_⟩
  · intro ext s roomId uIn raw id now m st h
    obtain ⟨_, h2, _⟩ := sendMessage_ok_spec ext s roomId uIn raw id now m st h
    refine ⟨h2, ?_⟩
    rw [h2, List.length_take]
    exact Nat.min_le_left 100 _
  · intro ext s roomId prompt reply id now m st h
    obtain ⟨_, h2, _⟩ := ryoReply_ok_spec ext s roomId prompt reply id now m st h
    refine ⟨h2, ?_⟩
    rw [h2, List.length_take]
    exact Nat.min_le_left 100 _
  · intro ext s roomId uIn raw id now hinv r
    rcases hres : handleSendMessage ext s roomId uIn raw id now with ⟨res, st⟩
    show (st.messages r).length ≤ 100
    cases res with
    | ok m =>
      obtain ⟨_, h2, h3, _⟩ := sendMessage_ok_spec ext s roomId uIn raw id now m st hres
      by_cases hr : r = roomId
      · subst hr
        rw [h2, List.length_take]
        exact Nat.min_le_left 100 _
      · rw [h3 r hr]
        exact hinv r
    | err c emsg =>
      obtain ⟨h1, _⟩ := sendMessage_err_state ext s roomId uIn raw id now c emsg st hres
      rw [h1]
      exact hinv r
  · intro ext s roomId prompt reply id now hinv r
    rcases hres : handleGenerateRyoReply ext s roomId prompt reply id now with ⟨res, st⟩
    show (st.messages r).length ≤ 100
    cases res with
    | ok m =>
      obtain ⟨_, h2, h3⟩ := ryoReply_ok_spec ext s roomId prompt reply id now m st hres
      by_cases hr : r = roomId
      · subst hr
        rw [h2, List.length_take]
        exact Nat.min_le_left 100 _
      · rw [h3 r hr]
        exact hinv r
    | err c emsg =>
      rw [ryoReply_err_state ext s roomId prompt reply id now c emsg st hres]
      exact hinv r

/-- Witness for C6: a concrete successful send into "general" stores the
message and trims to 100. -/
theorem message_log_never_exceeds_100_witness :
    (handleSendMessage ext0 baseState "general" "alice" "hi" "m1" 5000).2.messages "general"
        = ((⟨"m1", "general", "alice", "hi", 5000⟩ : ChatMessage)
            :: baseState.messages "general").take 100 ∧
    ((handleSendMessage ext0 baseState "general" "alice" "hi" "m1" 5000).2.messages "general").length ≤ 100 :=
  message_log_never_exceeds_100.1 ext0 baseState "general" "alice" "hi" "m1" 5000
    ⟨"m1", "general", "alice", "hi", 5000⟩
    (handleSendMessage ext0 baseState "general" "alice" "hi" "m1" 5000).2
    (Prod.ext_iff.mpr ⟨by decide, rfl⟩)

-- ---------------------------------------------------------------------------
-- Claim C9
-- ---------------------------------------------------------------------------

/-- C9: getMessages is in the GET router's publicActions list, so no
authentication runs, and handleGetMessages receives no caller identity and
performs no membership check: for any existing room — private rooms
included — it returns the last 20 stored messages to any caller. -/
theorem getMessages_open_access (s : ChatState) (roomId : String)
    (hvalid : isValidRoomId roomId = true)
    (hroom : (s.rooms roomId).isSome = true) :
    getRequiresAuth "getMessages" = false ∧
    handleGetMessages s roomId = .ok ((s.messages roomId).take 20) := by
  refine ⟨by decide, ?_⟩
  simp [handleGetMessages, hvalid, hroom]

/-- Witness for C9: the private room "priv1" is readable with no identity. -/
theorem getMessages_open_access_witness :
    getRequiresAuth "getMessages" = false ∧
    handleGetMessages baseState "priv1" = .ok ((baseState.messages "priv1").take 20) :=
  getMessages_open_access baseState "priv1" (by decide) (by decide)

-- ---------------------------------------------------------------------------
-- Claim C3
-- ---------------------------------------------------------------------------

/-- C3 counterexample: a username holding a token that is valid only through
the legacy single-token key chat:token:{username}.  The token validates
before a second issuance and fails strict validation immediately after
handleGenerateToken issued a second token, because the handler overwrites
that key with the new token — refuting the claim for "every username holding
a valid token". -/
theorem generateToken_invalidates_legacy_only_token :
    (validateAuth legacyOnlyState "alice" "tok1" false 0).1 = ⟨true, false⟩ ∧
    (handleGenerateToken legacyOnlyState "alice" "tok2" 0).1 = .ok "tok2" ∧
    (validateAuth (handleGenerateToken legacyOnlyState "alice" "tok2" 0).2
        "alice" "tok1" false 0).1 = ⟨false, false⟩ :=
  ⟨by decide, by decide, by decide⟩

/-- C3 (amended): issuing a second token T2 leaves valid any token T1 held in
the per-identity collection — the storage every current issuance path writes.
Only a credential surviving solely in the legacy single-token key is lost,
since generateToken overwrites that key. -/
theorem generateToken_preserves_collection_tokens (s : ChatState)
    (usernameInput t1 t2 : String) (now : Nat)
    (husern : usernameInput ≠ "")
    (hexists : (s.users (toLowerStr usernameInput)).isSome = true)
    (h1 : (kvGet now s.userTokens (toLowerStr usernameInput, t1)).isSome = true)
    (ht1 : t1 ≠ "") (ht2 : t2 ≠ "") :
    (validateAuth (handleGenerateToken s usernameInput t2 now).2
        usernameInput t1 false now).1 = ⟨true, false⟩ := by
  have hidem := toLowerStr_idem usernameInput
  obtain ⟨la, hla⟩ := Option.isSome_iff_exists.mp hexists
  have hget : (kvGet now (kvSet s.userTokens (toLowerStr usernameInput, t2) now
      (some (now + USER_EXPIRATION_TIME * 1000))) (toLowerStr usernameInput, t1)).isSome
      = true := by
    by_cases heq : t1 = t2
    · subst heq
      rw [kvGet_kvSet_self]
      simp [Entry.live, USER_EXPIRATION_TIME]
    · rw [kvGet_kvSet_ne _ _ _ _ _ _ (by simp [heq])]
      exact h1
  simp only [handleGenerateToken, if_neg husern, hla]
  simp only [storeToken, storeLastValidToken, if_neg ht2]
  simp [validateAuth, husern, ht1, hidem, hget]

/-- Witness for the amended C3 at a concrete collection-stored token. -/
theorem generateToken_preserves_collection_tokens_witness :
    (validateAuth (handleGenerateToken collectionTokenState "alice" "tok2" 0).2
        "alice" "tok1" false 0).1 = ⟨true, false⟩ :=
  generateToken_preserves_collection_tokens collectionTokenState "alice" "tok1"
    "tok2" 0 (by decide) (by decide) (by decide) (by decide) (by decide)

-- ---------------------------------------------------------------------------
-- Claim C10
-- ---------------------------------------------------------------------------

/-- C10: for a public-room send, both burst window counters are incremented
before the duplicate and content-length checks run, so a send that is
ultimately rejected as a duplicate or as too long has still consumed one unit
of quota in each window, with no rollback. -/
theorem rejected_send_still_consumes_quota (ext : Externals) (s : ChatState)
    (roomId uIn raw id : String) (now : Nat) (room : Room) (c : Nat)
    (emsg : String) (st : ChatState)
    (hroom : s.rooms roomId = some room)
    (hpub : roomIsPublic room.rtype = true)
    (h : handleSendMessage ext s roomId uIn raw id now = (.err c emsg, st))
    (hmsg : emsg = "Duplicate message detected" ∨
        emsg = "Message exceeds maximum length of 1000 characters") :
    m2Get now st.shortCtr roomId (toLowerStr uIn)
      = some ((m2Get now s.shortCtr roomId (toLowerStr uIn)).getD 0 + 1) ∧
    m2Get now st.longCtr roomId (toLowerStr uIn)
      = some ((m2Get now s.longCtr roomId (toLowerStr uIn)).getD 0 + 1) := by
  simp only [handleSendMessage] at h
  split at h
  · obtain ⟨he, _⟩ := Prod.ext_iff.mp h
    injection he with _ hemsg
    rcases hmsg with h2 | h2 <;> exact absurd (hemsg.trans h2) (by decide)
  split at h
  · obtain ⟨he, _⟩ := Prod.ext_iff.mp h
    injection he with _ hemsg
    rcases hmsg with h2 | h2 <;> exact absurd (hemsg.trans h2) (by decide)
  split at h
  · obtain ⟨he, _⟩ := Prod.ext_iff.mp h
    injection he with _ hemsg
    rcases hmsg with h2 | h2 <;> exact absurd (hemsg.trans h2) (by decide)
  simp only [hroom] at h
  split at h
  · rename_i bmsg hbs
    obtain ⟨he, _⟩ := Prod.ext_iff.mp h
    injection he with _ hemsg
    have hb3 := chatBurstCheck_some_msgs s roomId (toLowerStr uIn) room now bmsg hbs
    rw [hemsg] at hb3
    rcases hmsg with h2 | h2 <;> rcases hb3 with h3 | h3 | h3 <;>
      exact absurd (h2.symm.trans h3) (by decide)
  rename_i hbnone
  have hinc := chatBurstCheck_none_incr s roomId (toLowerStr uIn) room now hpub hbnone
  split at h
  · rename_i errm hens
    split at h
    · rename_i heq
      obtain ⟨he, _⟩ := Prod.ext_iff.mp h
      injection he with _ hemsg
      rcases hmsg with h2 | h2 <;>
        exact absurd (heq.symm.trans (hemsg.trans h2)) (by decide)
    · obtain ⟨he, _⟩ := Prod.ext_iff.mp h
      injection he with _ hemsg
      rcases hmsg with h2 | h2 <;> exact absurd (hemsg.trans h2) (by decide)
  rename_i s2 hens
  have he2 := ensureUserExists_ok_state ext _ s2 (toLowerStr uIn) now hens
  split at h
  · obtain ⟨_, hst⟩ := Prod.ext_iff.mp h
    subst hst
    exact ⟨he2.2.2.2.1 ▸ hinc.1, he2.2.2.2.2.1 ▸ hinc.2⟩
  split at h
  · obtain ⟨_, hst⟩ := Prod.ext_iff.mp h
    subst hst
    exact ⟨he2.2.2.2.1 ▸ hinc.1, he2.2.2.2.2.1 ▸ hinc.2⟩
  · simp at h

/-- Witness for C10: a concrete duplicate-rejected send in "general" has
consumed one unit of both window counters. -/
theorem rejected_send_still_consumes_quota_witness :
    m2Get 5000 (handleSendMessage ext0 generalOneMsgState "general" "alice" "hi" "m2" 5000).2.shortCtr
        "general" (toLowerStr "alice")
      = some ((m2Get 5000 generalOneMsgState.shortCtr "general" (toLowerStr "alice")).getD 0 + 1) ∧
    m2Get 5000 (handleSendMessage ext0 generalOneMsgState "general" "alice" "hi" "m2" 5000).2.longCtr
        "general" (toLowerStr "alice")
      = some ((m2Get 5000 generalOneMsgState.longCtr "general" (toLowerStr "alice")).getD 0 + 1) :=
  rejected_send_still_consumes_quota ext0 generalOneMsgState "general" "alice"
    "hi" "m2" 5000 ⟨"general", "general", some "public", none, 0, 0⟩ 400
    "Duplicate message detected"
    (handleSendMessage ext0 generalOneMsgState "general" "alice" "hi" "m2" 5000).2
    (by decide) (by decide) (Prod.ext_iff.mpr ⟨by decide, rfl⟩) (Or.inl rfl)

-- ---------------------------------------------------------------------------
-- Claim C5
-- ---------------------------------------------------------------------------

/-- C5 counterexample: the minimum-interval rule compares whole-second
timestamps (Math.floor(Date.now() / 1000)), so two sends 1.9 seconds apart —
at 900 ms and 2800 ms — are both admitted: the stored last-sent second is 0
and the second send computes delta = 2 - 0 = 2, not below the 2s minimum.
This refutes the claim that an interval of 1.9s fails. -/
theorem burst_interval_1900ms_admitted :
    (handleSendMessage ext0 baseState "general" "alice" "one" "m1" 900).1
      = .ok ⟨"m1", "general", "alice", "one", 900⟩ ∧
    (handleSendMessage ext0
        (handleSendMessage ext0 baseState "general" "alice" "one" "m1" 900).2
        "general" "alice" "two" "m2" 2800).1
      = .ok ⟨"m2", "general", "alice", "two", 2800⟩ :=
  ⟨by decide, by decide⟩

/-- C5 (amended): in public rooms the burst limiter enforces, in order, the
short window (10s, cap 3 — a live counter already at the cap rejects the next
message), the long window (60s, cap 20), and a 2s minimum interval computed
on floored-second timestamps: an interval of exactly 2.0s is always admitted,
while a 1.9s interval is rejected when the previous send lay on a whole
second boundary (floored delta 1).  Private rooms bypass the limiter
entirely. -/
theorem burst_limiter_boundaries :
    (∀ s r u room now, roomIsPublic room.rtype = true →
        m2Get now s.shortCtr r u = some CHAT_BURST_SHORT_LIMIT →
        (chatBurstCheck s r u room now).1
          = some "You\x27re sending messages too quickly. Please slow down.") ∧
    (∀ s r u room now, roomIsPublic room.rtype = true →
        (m2Get now s.shortCtr r u).getD 0 + 1 ≤ CHAT_BURST_SHORT_LIMIT →
        m2Get now s.longCtr r u = some CHAT_BURST_LONG_LIMIT →
        (chatBurstCheck s r u room now).1
          = some "Too many messages in a short period. Please wait a moment.") ∧
    (∀ s r u room p, roomIsPublic room.rtype = true →
        (m2Get (p + 2000) s.shortCtr r u).getD 0 + 1 ≤ CHAT_BURST_SHORT_LIMIT →
        (m2Get (p + 2000) s.longCtr r u).getD 0 + 1 ≤ CHAT_BURST_LONG_LIMIT →
        m2Get (p + 2000) s.lastSent r u = some (p / 1000) →
        (chatBurstCheck s r u room (p + 2000)).1 = none) ∧
    (∀ s r u room p, roomIsPublic room.rtype = true →
        (m2Get (p + 1900) s.shortCtr r u).getD 0 + 1 ≤ CHAT_BURST_SHORT_LIMIT →
        (m2Get (p + 1900) s.longCtr r u).getD 0 + 1 ≤ CHAT_BURST_LONG_LIMIT →
        p % 1000 = 0 →
        m2Get (p + 1900) s.lastSent r u = some (p / 1000) →
        (chatBurstCheck s r u room (p + 1900)).1
          = some "Please wait a moment before sending another message.") ∧
    (∀ s r u room now, room.rtype = some "private" →
        chatBurstCheck s r u room now = (none, s)) := by
  have hpriv : roomIsPublic (some "private") = false := by decide
  refine ⟨?_, ?_, ?_, ?_, ?_⟩
  · intro s r u room now hpub hget
    have hv : (m2Incr now s.shortCtr r u).1 = CHAT_BURST_SHORT_LIMIT + 1 := by
      rw [m2Incr_val, hget]
      rfl
    simp [chatBurstCheck, hpub, hv, CHAT_BURST_SHORT_LIMIT]
  · intro s r u room now hpub hshort hlong
    have h1 : ¬((m2Incr now s.shortCtr r u).1 > CHAT_BURST_SHORT_LIMIT) := by
      rw [m2Incr_val]
      omega
    have h2 : (m2Incr now s.longCtr r u).1 = CHAT_BURST_LONG_LIMIT + 1 := by
      rw [m2Incr_val, hlong]
      rfl
    simp [chatBurstCheck, hpub, h1, h2, CHAT_BURST_LONG_LIMIT]
  · intro s r u room p hpub hshort hlong hlast
    have h1 : ¬((m2Incr (p + 2000) s.shortCtr r u).1 > CHAT_BURST_SHORT_LIMIT) := by
      rw [m2Incr_val]
      omega
    have h2 : ¬((m2Incr (p + 2000) s.longCtr r u).1 > CHAT_BURST_LONG_LIMIT) := by
      rw [m2Incr_val]
      omega
    have hd : (p + 2000) / 1000 - p / 1000 = 2 := by omega
    simp [chatBurstCheck, hpub, h1, h2, hlast, hd, CHAT_MIN_INTERVAL_SECONDS]
  · intro s r u room p hpub hshort hlong hmod hlast
    have h1 : ¬((m2Incr (p + 1900) s.shortCtr r u).1 > CHAT_BURST_SHORT_LIMIT) := by
      rw [m2Incr_val]
      omega
    have h2 : ¬((m2Incr (p + 1900) s.longCtr r u).1 > CHAT_BURST_LONG_LIMIT) := by
      rw [m2Incr_val]
      omega
    have hd : (p + 1900) / 1000 - p / 1000 = 1 := by omega
    simp [chatBurstCheck, hpub, h1, h2, hlast, hd, CHAT_MIN_INTERVAL_SECONDS]
  · intro s r u room now hr
    simp [chatBurstCheck, hr, hpriv]

/-- Witness for the amended C5: each boundary at a concrete state. -/
theorem burst_limiter_boundaries_witness :
    (chatBurstCheck burstShort3State "general" "alice" generalRoom 5000).1
      = some "You\x27re sending messages too quickly. Please slow down." ∧
    (chatBurstCheck burstLong20State "general" "alice" generalRoom 5000).1
      = some "Too many messages in a short period. Please wait a moment." ∧
    (chatBurstCheck (lastSentState 3) "general" "alice" generalRoom (3000 + 2000)).1
      = none ∧
    (chatBurstCheck (lastSentState 3) "general" "alice" generalRoom (3000 + 1900)).1
      = some "Please wait a moment before sending another message." ∧
    chatBurstCheck baseState "priv1" "alice" priv1Room 0 = (none, baseState) :=
  ⟨burst_limiter_boundaries.1 burstShort3State "general" "alice" generalRoom 5000
      (by decide) (by decide),
   burst_limiter_boundaries.2.1 burstLong20State "general" "alice" generalRoom 5000
      (by decide) (by decide) (by decide),
   burst_limiter_boundaries.2.2.1 (lastSentState 3) "general" "alice" generalRoom 3000
      (by decide) (by decide) (by decide) (by decide),
   burst_limiter_boundaries.2.2.2.1 (lastSentState 3) "general" "alice" generalRoom 3000
      (by decide) (by decide) (by decide) (by decide) (by decide),
   burst_limiter_boundaries.2.2.2.2 baseState "priv1" "alice" priv1Room 0 (by decide)⟩

-- ---------------------------------------------------------------------------
-- Claim C8
-- ---------------------------------------------------------------------------

/-- C8 counterexample: a user with exactly one active token (issued by
handleGenerateToken) — logoutAllDevices reports 3 deletions, not the 1 token
revoked: the per-identity entry, the legacy single-token key, and the grace
record are each counted. -/
theorem logoutAllDevices_count_not_token_count :
    ((kvLive 0 (handleGenerateToken aliceOnlyState "alice" "tokA" 0).2.userTokens).filter
        (fun p => decide (p.1.1 = "alice"))).length = 1 ∧
    (handleLogoutAllDevices (handleGenerateToken aliceOnlyState "alice" "tokA" 0).2
        "alice" 0).1 = .ok 3 :=
  ⟨by decide, by decide⟩

/-- Alive values surviving the owner-purge pass of deleteAllUserTokens never
map to the purged username. -/
theorem kvGet_after_owner_purge (g : KV String String) (u tok : String)
    (now t2 : Nat) (hm : now ≤ t2) (v : String)
    (h : kvGet t2 (g.filter (fun p =>
        decide ¬((((kvLive now g).filter (fun q => decide (toLowerStr q.2.value = u))).any
          (fun q => q.1 = p.1)) = true))) tok = some v) :
    toLowerStr v ≠ u := by
  intro hvu
  obtain ⟨e, hmem, hv, hlive⟩ := kvGet_some_mem _ _ _ _ h
  rw [List.mem_filter] at hmem
  obtain ⟨hgmem, hpred⟩ := hmem
  have hlivenow : e.live now = true := Entry.live_mono e hm hlive
  have hany : (((kvLive now g).filter (fun q => decide (toLowerStr q.2.value = u))).any
      (fun q => q.1 = tok)) = true := by
    rw [List.any_eq_true]
    refine ⟨(tok, e), ?_, by simp⟩
    rw [List.mem_filter]
    exact ⟨List.mem_filter.mpr ⟨hgmem, hlivenow⟩, by simp [hv, hvu]⟩
  exact (of_decide_eq_true hpred) hany

/-- C8 (amended): deleteAllUserTokens removes every credential of the
identity — per-identity collection, flat mappings, the legacy single-token
key, and the grace record — so afterwards no token validates for the user in
either mode at any later time; the returned value counts the key deletions of
the four passes, which can exceed the number of distinct tokens revoked. -/
theorem deleteAllUserTokens_revokes_all (s : ChatState) (username : String)
    (now t2 : Nat) (hmono : now ≤ t2) (tok : String) (ae : Bool) :
    (validateAuth (deleteAllUserTokens s username now).2 username tok ae t2).1.valid
      = false := by
  by_cases hu : username = "" ∨ tok = ""
  · simp [validateAuth, hu]
  have h1 : kvGet t2 (deleteAllUserTokens s username now).2.userTokens
      (toLowerStr username, tok) = none := by
    show kvGet t2 (s.userTokens.filter (fun p =>
        decide ¬(p.1.1 = toLowerStr username ∧ p.2.live now = true)))
      (toLowerStr username, tok) = none
    apply kvGet_eq_none_of_all_dead
    intro e hmem
    rw [List.mem_filter] at hmem
    obtain ⟨_, hpred⟩ := hmem
    have hnp := of_decide_eq_true hpred
    cases hb : e.live t2
    · rfl
    · exact absurd ⟨rfl, Entry.live_mono e hmono hb⟩ hnp
  have h2 : ∀ v, kvGet t2 (deleteAllUserTokens s username now).2.flatTokens tok
      = some v → toLowerStr v ≠ toLowerStr username := by
    intro v hf
    refine kvGet_after_owner_purge
      (s.flatTokens.filter (fun p =>
        decide ¬((((kvLive now s.userTokens).filter (fun q =>
            decide (q.1.1 = toLowerStr username))).any
          (fun q => q.1.2 = p.1)) = true)))
      (toLowerStr username) tok now t2 hmono v ?_
    exact hf
  have hflatne : ¬((kvGet t2 (deleteAllUserTokens s username now).2.flatTokens tok).map
      toLowerStr = some (toLowerStr username)) := by
    cases hf : kvGet t2 (deleteAllUserTokens s username now).2.flatTokens tok with
    | none => simp
    | some v => simp [h2 v hf]
  have h3 : kvGet t2 (deleteAllUserTokens s username now).2.legacyTokens
      (toLowerStr username) = none := kvGet_kvDel_self _ _ _
  have h4 : kvGet t2 (deleteAllUserTokens s username now).2.lastTokens
      (toLowerStr username) = none := kvGet_kvDel_self _ _ _
  cases ae <;> simp [validateAuth, hu, h1, hflatne, h3, h4]

/-- Witness for the amended C8: after a full logout, the freshly issued token
no longer validates even with allowExpired. -/
theorem deleteAllUserTokens_revokes_all_witness :
    (validateAuth
      (deleteAllUserTokens (handleGenerateToken aliceOnlyState "alice" "tokA" 0).2
        "alice" 0).2 "alice" "tokA" true 0).1.valid = false :=
  deleteAllUserTokens_revokes_all
    (handleGenerateToken aliceOnlyState "alice" "tokA" 0).2 "alice" 0 0
    (Nat.le_refl 0) "tokA" true

-- ---------------------------------------------------------------------------
-- Claim C4
-- ---------------------------------------------------------------------------

/-- A send that passes identifier validation, the burst limiter, user lookup,
and the length check reduces to its duplicate decision against the room's
most recent message. -/
theorem sendMessage_reaches_dup (ext : Externals) (s1 : ChatState)
    (roomId2 uIn raw2 id2 : String) (now2 : Nat) (room2 : Room)
    (hvu : isValidUsername (toLowerStr uIn) = true)
    (hvr : isValidRoomId roomId2 = true)
    (hraw : raw2 ≠ "")
    (hprof : ext.isProfane (toLowerStr uIn) = false)
    (huser : (s1.users (toLowerStr uIn)).isSome = true)
    (hroom : s1.rooms roomId2 = some room2)
    (hburst : (chatBurstCheck s1 roomId2 (toLowerStr uIn) room2 now2).1 = none)
    (hlen2 : (escapeHTML (ext.filterPU raw2)).length ≤ MAX_MESSAGE_LENGTH) :
    handleSendMessage ext s1 roomId2 uIn raw2 id2 now2 =
      (let content := escapeHTML (ext.filterPU raw2)
       let s2 := (chatBurstCheck s1 roomId2 (toLowerStr uIn) room2 now2).2
       let dup :=
         match (s2.messages roomId2).head? with
         | some lastMsg =>
           decide (lastMsg.username = toLowerStr uIn) && decide (lastMsg.content = content)
         | none => false
       if dup then (.err 400 "Duplicate message detected", s2)
       else
         let message : ChatMessage := ⟨id2, roomId2, toLowerStr uIn, content, now2⟩
         let s3 := setMessages s2 roomId2 ((message :: s2.messages roomId2).take 100)
         let s4 := setUserRecord s3 (toLowerStr uIn) now2
         (.ok message, refreshRoomPresence s4 roomId2 (toLowerStr uIn) now2)) := by
  have husers2 : (chatBurstCheck s1 roomId2 (toLowerStr uIn) room2 now2).2.users
      = s1.users :=
    (chatBurstCheck_state s1 roomId2 (toLowerStr uIn) room2 now2).2.2.1
  have hens : ensureUserExists ext
      (chatBurstCheck s1 roomId2 (toLowerStr uIn) room2 now2).2 (toLowerStr uIn) now2
      = .ok (chatBurstCheck s1 roomId2 (toLowerStr uIn) room2 now2).2 := by
    obtain ⟨la, hla⟩ := Option.isSome_iff_exists.mp huser
    have hl := isValidUsername_length hvu
    unfold ensureUserExists
    rw [if_neg (by simp [hprof]), if_neg (Nat.not_lt.mpr hl.1),
      if_neg (Nat.not_lt.mpr hl.2), if_neg (by simp [hvu]), husers2, hla]
  unfold handleSendMessage
  rw [if_neg (by simp [hvu]), if_neg (by simp [hvr]), if_neg hraw]
  simp only [hroom, hburst, hens]
  rw [if_neg (Nat.not_lt.mpr hlen2)]

/-- C4: an exact (username, content) duplicate of the room's most recent
message — i.e. an immediate resend with no intervening message — is rejected
with the duplicate error, while a different content, or the same content sent
to a different room whose most recent message differs, is admitted; all
subject to the run reaching the duplicate check (valid identifiers, burst
limiter admits, user profanity check passes, content within bounds). -/
theorem duplicate_send_rejected (ext : Externals) (s : ChatState)
    (roomId uIn raw id1 : String) (now1 : Nat) (m : ChatMessage) (s1 : ChatState)
    (h1 : handleSendMessage ext s roomId uIn raw id1 now1 = (.ok m, s1))
    (hprof : ext.isProfane (toLowerStr uIn) = false) :
    (∀ id2 now2 room2,
        s1.rooms roomId = some room2 →
        (chatBurstCheck s1 roomId (toLowerStr uIn) room2 now2).1 = none →
        (handleSendMessage ext s1 roomId uIn raw id2 now2).1
          = .err 400 "Duplicate message detected") ∧
    (∀ id2 now2 room2 raw2,
        s1.rooms roomId = some room2 →
        (chatBurstCheck s1 roomId (toLowerStr uIn) room2 now2).1 = none →
        raw2 ≠ "" →
        escapeHTML (ext.filterPU raw2) ≠ escapeHTML (ext.filterPU raw) →
        (escapeHTML (ext.filterPU raw2)).length ≤ MAX_MESSAGE_LENGTH →
        ((handleSendMessage ext s1 roomId uIn raw2 id2 now2).1).isOk = true) ∧
    (∀ id2 now2 roomId2 room2,
        roomId2 ≠ roomId →
        isValidRoomId roomId2 = true →
        s1.rooms roomId2 = some room2 →
        (chatBurstCheck s1 roomId2 (toLowerStr uIn) room2 now2).1 = none →
        (∀ m2, (s1.messages roomId2).head? = some m2 →
            ¬(m2.username = toLowerStr uIn ∧
              m2.content = escapeHTML (ext.filterPU raw))) →
        ((handleSendMessage ext s1 roomId2 uIn raw id2 now2).1).isOk = true) := by
  obtain ⟨hm, hlog, hoth, hrooms, husers, hvu, hvr, hraw, hlen, _⟩ :=
    sendMessage_ok_spec ext s roomId uIn raw id1 now1 m s1 h1
  have huser1 : (s1.users (toLowerStr uIn)).isSome = true := by
    rw [husers]
    rfl
  have hhead : (s1.messages roomId).head? = some m := by
    rw [hlog]
    rfl
  refine ⟨?_, ?_, ?_⟩
  · intro id2 now2 room2 hroom2 hburst
    rw [sendMessage_reaches_dup ext s1 roomId uIn raw id2 now2 room2 hvu hvr hraw
      hprof huser1 hroom2 hburst hlen]
    have hmsg2 : ((chatBurstCheck s1 roomId (toLowerStr uIn) room2 now2).2.messages roomId).head?
        = some m :=
      (chatBurstCheck_state s1 roomId (toLowerStr uIn) room2 now2).1 ▸ hhead
    simp only [hmsg2]
    rw [if_pos (by rw [hm]; simp)]
  · intro id2 now2 room2 raw2 hroom2 hburst hraw2 hdiff hlen2
    rw [sendMessage_reaches_dup ext s1 roomId uIn raw2 id2 now2 room2 hvu hvr hraw2
      hprof huser1 hroom2 hburst hlen2]
    have hmsg2 : ((chatBurstCheck s1 roomId (toLowerStr uIn) room2 now2).2.messages roomId).head?
        = some m :=
      (chatBurstCheck_state s1 roomId (toLowerStr uIn) room2 now2).1 ▸ hhead
    have hcont : m.content = escapeHTML (ext.filterPU raw) := by rw [hm]
    have hfalse : (decide (m.username = toLowerStr uIn) &&
        decide (m.content = escapeHTML (ext.filterPU raw2))) = false := by
      by_cases hb : m.content = escapeHTML (ext.filterPU raw2)
      · exact absurd (hcont.symm.trans hb).symm hdiff
      · simp [hb]
    simp only [hmsg2, hfalse]
    simp [ApiResult.isOk]
  · intro id2 now2 roomId2 room2 hne hvr2 hroom2 hburst hnodup
    rw [sendMessage_reaches_dup ext s1 roomId2 uIn raw id2 now2 room2 hvu hvr2 hraw
      hprof huser1 hroom2 hburst hlen]
    have hmsgs : ((chatBurstCheck s1 roomId2 (toLowerStr uIn) room2 now2).2.messages roomId2).head?
        = (s1.messages roomId2).head? := by
      rw [(chatBurstCheck_state s1 roomId2 (toLowerStr uIn) room2 now2).1]
    cases hh : (s1.messages roomId2).head? with
    | none =>
      simp only [hmsgs, hh]
      simp [ApiResult.isOk]
    | some m2 =>
      have hcond := hnodup m2 hh
      have hfalse : (decide (m2.username = toLowerStr uIn) &&
          decide (m2.content = escapeHTML (ext.filterPU raw))) = false := by
        by_cases ha : m2.username = toLowerStr uIn
        · by_cases hb : m2.content = escapeHTML (ext.filterPU raw)
          · exact absurd ⟨ha, hb⟩ hcond
          · simp [hb]
        · simp [ha]
      simp only [hmsgs, hh, hfalse]
      simp [ApiResult.isOk]

/-- Witness for C4: a concrete immediate resend of the same content into the
private room "priv1" is rejected as a duplicate. -/
theorem duplicate_send_rejected_witness :
    (handleSendMessage ext0
        (handleSendMessage ext0 baseState "priv1" "alice" "hello" "m1" 8000).2
        "priv1" "alice" "hello" "m2" 9000).1
      = .err 400 "Duplicate message detected" :=
  (duplicate_send_rejected ext0 baseState "priv1" "alice" "hello" "m1" 8000
      ⟨"m1", "priv1", "alice", "hello", 8000⟩
      (handleSendMessage ext0 baseState "priv1" "alice" "hello" "m1" 8000).2
      (Prod.ext_iff.mpr ⟨by decide, rfl⟩) (by decide)).1
    "m2" 9000 priv1Room (by decide) (by decide)

-- ---------------------------------------------------------------------------
-- Claim C2
-- ---------------------------------------------------------------------------

/-- C2: a refresh that validates the old token succeeds, and afterwards the
old token fails strict validation at any time; with allowExpired it validates
with expired = true at any time strictly before the 365-day grace period from
the refresh elapses, and fails under both modes once the grace period has
elapsed.  The flat-mapping hypothesis rules out a corrupted store in which
the token is mapped to a different user. -/
theorem refreshToken_oldToken_lifecycle (s : ChatState)
    (usernameInput oldToken newTok : String) (now t : Nat)
    (husern : usernameInput ≠ "") (hold : oldToken ≠ "")
    (hnew : newTok ≠ oldToken) (hnewne : newTok ≠ "")
    (hla : (s.users (toLowerStr usernameInput)).isSome = true)
    (hvalid : (validateAuth s (toLowerStr usernameInput) oldToken true now).1.valid = true)
    (hflat : ∀ v, kvGet now s.flatTokens oldToken = some v →
        toLowerStr v = toLowerStr usernameInput) :
    (handleRefreshToken s usernameInput oldToken newTok now).1 = .ok newTok ∧
    (validateAuth (handleRefreshToken s usernameInput oldToken newTok now).2
        usernameInput oldToken false t).1.valid = false ∧
    (t < now + TOKEN_GRACE_PERIOD * 1000 →
        (validateAuth (handleRefreshToken s usernameInput oldToken newTok now).2
          usernameInput oldToken true t).1 = ⟨true, true⟩) ∧
    (now + TOKEN_GRACE_PERIOD * 1000 ≤ t →
        (validateAuth (handleRefreshToken s usernameInput oldToken newTok now).2
          usernameInput oldToken true t).1.valid = false) := by
  have hidem := toLowerStr_idem usernameInput
  obtain ⟨la, hlaeq⟩ := Option.isSome_iff_exists.mp hla
  have hguard : ¬(usernameInput = "" ∨ oldToken = "") := by simp [husern, hold]
  set u := toLowerStr usernameInput with hu
  have hcond : (!(validateAuth s u oldToken true now).1.valid) = false := by
    rw [hvalid]
    rfl
  have hmain : handleRefreshToken s usernameInput oldToken newTok now
      = (.ok newTok, storeToken
          { deleteToken (storeLastValidToken (validateAuth s u oldToken true now).2
              u oldToken now TOKEN_GRACE_PERIOD now) oldToken now with
            legacyTokens := kvSet (deleteToken (storeLastValidToken
                (validateAuth s u oldToken true now).2
                u oldToken now TOKEN_GRACE_PERIOD now) oldToken now).legacyTokens
              u newTok (some (now + USER_EXPIRATION_TIME * 1000)) }
          u newTok now) := by
    simp only [handleRefreshToken, if_neg hguard, hlaeq, hcond, Bool.false_eq_true,
      if_false]
  rw [hmain]
  set vr2 := (validateAuth s u oldToken true now).2 with hvr2
  set s1x := storeLastValidToken vr2 u oldToken now TOKEN_GRACE_PERIOD now with hs1x
  set s2x := deleteToken s1x oldToken now with hs2x
  set s3x := { s2x with legacyTokens := (kvSet s2x.legacyTokens u newTok (some (now + USER_EXPIRATION_TIME * 1000))) } with hs3x
  set s4x := storeToken s3x u newTok now with hs4x
  have hs1flat : s1x.flatTokens = vr2.flatTokens := by
    rw [hs1x]
    rfl
  have hflat1x : kvGet now s1x.flatTokens oldToken = kvGet now s.flatTokens oldToken := by
    rw [hs1flat]
    rcases validateAuth_flatTokens_cases s u oldToken true now with hc | hc
    · rw [← hvr2] at hc
      rw [hc]
    · rw [← hvr2] at hc
      rw [hc, kvGet_kvExpire_self_now]
      unfold USER_TTL_SECONDS
      omega
  have hs4eq : s4x = { s3x with
      userTokens := kvSet s3x.userTokens (u, newTok) now
        (some (now + USER_EXPIRATION_TIME * 1000)),
      flatTokens := kvSet s3x.flatTokens newTok u
        (some (now + USER_EXPIRATION_TIME * 1000)) } := by
    rw [hs4x, storeToken_eq _ _ _ _ hnewne, hidem]
  have hkeyne : (u, oldToken) ≠ (u, newTok) := by
    simp
    exact fun hc => hnew hc.symm
  have hs2flat : s2x.flatTokens = kvDel s1x.flatTokens oldToken := by
    rcases hdel : kvGet now s1x.flatTokens oldToken with _ | v
    · rw [hs2x, deleteToken_eq_none _ _ _ hold hdel]
    · rw [hs2x, deleteToken_eq_some _ _ v _ hold hdel]
  have hA : kvGet t s4x.userTokens (u, oldToken) = none := by
    rw [hs4eq]
    show kvGet t (kvSet s3x.userTokens (u, newTok) now
      (some (now + USER_EXPIRATION_TIME * 1000))) (u, oldToken) = none
    rw [kvGet_kvSet_ne _ _ _ _ _ _ hkeyne]
    show kvGet t s2x.userTokens (u, oldToken) = none
    rcases hdel : kvGet now s1x.flatTokens oldToken with _ | v
    · rw [hs2x, deleteToken_eq_none _ _ _ hold hdel]
      show kvGet t (s1x.userTokens.filter (fun p => decide (p.1.2 ≠ oldToken)))
        (u, oldToken) = none
      apply kvGet_filter_excluded
      intro e
      simp
    · have hvu : toLowerStr v = u := by
        apply hflat
        rw [← hflat1x]
        exact hdel
      rw [hs2x, deleteToken_eq_some _ _ v _ hold hdel]
      show kvGet t (kvDel s1x.userTokens (toLowerStr v, oldToken)) (u, oldToken) = none
      rw [hvu]
      exact kvGet_kvDel_self _ _ _
  have hB : kvGet t s4x.flatTokens oldToken = none := by
    rw [hs4eq]
    show kvGet t (kvSet s3x.flatTokens newTok u
      (some (now + USER_EXPIRATION_TIME * 1000))) oldToken = none
    rw [kvGet_kvSet_ne _ _ _ _ _ _ (Ne.symm hnew)]
    show kvGet t s2x.flatTokens oldToken = none
    rw [hs2flat]
    exact kvGet_kvDel_self _ _ _
  have hC : kvGet t s4x.legacyTokens u ≠ some oldToken := by
    have : s4x.legacyTokens = kvSet s2x.legacyTokens u newTok
        (some (now + USER_EXPIRATION_TIME * 1000)) := by
      rw [hs4eq]
    rw [this, kvGet_kvSet_self]
    split
    · simp
      exact fun hc => hnew hc
    · simp
  have hD : kvGet t s4x.lastTokens u
      = if t < now + TOKEN_GRACE_PERIOD * 1000
        then some ⟨oldToken, now⟩ else none := by
    have : s4x.lastTokens = kvSet vr2.lastTokens u ⟨oldToken, now⟩
        (some (now + TOKEN_GRACE_PERIOD * 1000)) := by
      rw [hs4eq]
      show s2x.lastTokens = _
      have h2l : s2x.lastTokens = s1x.lastTokens := by
        rcases hdel : kvGet now s1x.flatTokens oldToken with _ | v
        · rw [hs2x, deleteToken_eq_none _ _ _ hold hdel]
        · rw [hs2x, deleteToken_eq_some _ _ v _ hold hdel]
      rw [h2l, hs1x]
      show kvSet vr2.lastTokens (toLowerStr u) _ _ = _
      rw [hidem]
    rw [this, kvGet_kvSet_self]
    by_cases hlt : t < now + TOKEN_GRACE_PERIOD * 1000
    · rw [if_pos (by simp [Entry.live, hlt]), if_pos hlt]
    · rw [if_neg (by simp [Entry.live, hlt]), if_neg hlt]
  refine ⟨rfl, ?_, ?_, ?_⟩
  · show (validateAuth s4x usernameInput oldToken false t).1.valid = false
    rw [validateAuth_eval s4x usernameInput oldToken t false husern hold hA hB hC]
    rfl
  · intro ht
    show (validateAuth s4x usernameInput oldToken true t).1 = ⟨true, true⟩
    rw [validateAuth_eval s4x usernameInput oldToken t true husern hold hA hB hC]
    rw [if_pos rfl]
    rw [hD, if_pos ht]
    show (if (decide (oldToken = oldToken) &&
        decide (t < now + TOKEN_GRACE_PERIOD * 1000)) = true
      then ((⟨true, true⟩ : AuthResult), s4x)
      else (⟨false, false⟩, s4x)).1 = ⟨true, true⟩
    rw [if_pos (by simp [ht])]
  · intro ht
    show (validateAuth s4x usernameInput oldToken true t).1.valid = false
    rw [validateAuth_eval s4x usernameInput oldToken t true husern hold hA hB hC]
    rw [if_pos rfl]
    rw [hD, if_neg (by omega)]

/-- Witness for C2 at a concrete collection-stored token, checked shortly
after the refresh (within the grace period). -/
theorem refreshToken_oldToken_lifecycle_witness :
    (handleRefreshToken collectionTokenState "alice" "tok1" "tok9" 0).1 = .ok "tok9" ∧
    (validateAuth (handleRefreshToken collectionTokenState "alice" "tok1" "tok9" 0).2
        "alice" "tok1" false 5).1.valid = false ∧
    (5 < 0 + TOKEN_GRACE_PERIOD * 1000 →
        (validateAuth (handleRefreshToken collectionTokenState "alice" "tok1" "tok9" 0).2
          "alice" "tok1" true 5).1 = ⟨true, true⟩) ∧
    (0 + TOKEN_GRACE_PERIOD * 1000 ≤ 5 →
        (validateAuth (handleRefreshToken collectionTokenState "alice" "tok1" "tok9" 0).2
          "alice" "tok1" true 5).1.valid = false) :=
  refreshToken_oldToken_lifecycle collectionTokenState "alice" "tok1" "tok9" 0 5
    (by decide) (by decide) (by decide) (by decide) (by decide) (by decide)
    (by intro v hv
        have heval : kvGet 0 collectionTokenState.flatTokens "tok1" = some "alice" := by
          decide
        rw [heval] at hv
        injection hv with h
        rw [← h])

-- ---------------------------------------------------------------------------
-- Claim C7
-- ---------------------------------------------------------------------------

/-- C7 counterexample: bob leaves the 2-member private room "priv1" via
handleLeaveRoom; the room record and message log are deleted, but alice's
presence entry survives — the leaveRoom deletion pipeline, unlike
handleDeleteRoom, does not purge the room's presence keys. -/
theorem leaveRoom_leaves_other_presence :
    (handleLeaveRoom baseState "priv1" "bob" 0).2.rooms "priv1" = none ∧
    (handleLeaveRoom baseState "priv1" "bob" 0).2.messages "priv1" = [] ∧
    kvGet 0 (handleLeaveRoom baseState "priv1" "bob" 0).2.presence
      ("priv1", "alice") = some 0 :=
  ⟨by decide, by decide, by decide⟩

/-- C7 (amended): when one member of a 2-member private room leaves, the room
record and message log are always deleted (never a 0- or 1-member private
room): via handleDeleteRoom the presence entries of the room are purged as
well, while via handleLeaveRoom only the leaver's presence entry is removed
and the other members' entries are left to expire; and a leaveRoom by a
member whose presence entry is not live changes no room record at all. -/
theorem private_two_member_leave_deletes_room :
    (∀ s roomId uIn now room m1 m2,
        s.rooms roomId = some room →
        room.rtype = some "private" →
        room.members = some [m1, m2] →
        (toLowerStr uIn = m1 ∨ toLowerStr uIn = m2) →
        (handleDeleteRoom s roomId uIn now).1 = .ok () ∧
        (handleDeleteRoom s roomId uIn now).2.rooms roomId = none ∧
        (handleDeleteRoom s roomId uIn now).2.messages roomId = [] ∧
        (∀ v t2, kvGet t2 (handleDeleteRoom s roomId uIn now).2.presence
          (roomId, v) = none)) ∧
    (∀ s roomId uIn now room m1 m2,
        isValidUsername (toLowerStr uIn) = true →
        isValidRoomId roomId = true →
        s.rooms roomId = some room →
        room.rtype = some "private" →
        room.members = some [m1, m2] →
        (toLowerStr uIn = m1 ∨ toLowerStr uIn = m2) →
        (kvGet now s.presence (roomId, toLowerStr uIn)).isSome = true →
        (handleLeaveRoom s roomId uIn now).1 = .ok () ∧
        (handleLeaveRoom s roomId uIn now).2.rooms roomId = none ∧
        (handleLeaveRoom s roomId uIn now).2.messages roomId = [] ∧
        (∀ t2, kvGet t2 (handleLeaveRoom s roomId uIn now).2.presence
          (roomId, toLowerStr uIn) = none) ∧
        (∀ v t2, v ≠ toLowerStr uIn →
            kvGet t2 (handleLeaveRoom s roomId uIn now).2.presence (roomId, v)
              = kvGet t2 s.presence (roomId, v))) ∧
    (∀ s roomId uIn now,
        isValidUsername (toLowerStr uIn) = true →
        isValidRoomId roomId = true →
        (s.rooms roomId).isSome = true →
        (kvGet now s.presence (roomId, toLowerStr uIn)).isSome = false →
        (handleLeaveRoom s roomId uIn now).2.rooms = s.rooms) := by
  refine ⟨?_, ?_, ?_⟩
  · intro s roomId uIn now room m1 m2 hroom htype hmem hu
    have hcontains : ((room.members.getD []).contains (toLowerStr uIn)) = true := by
      rw [hmem]
      rcases hu with h | h <;> simp [h]
    have hfl := two_member_filter_le_one m1 m2 (toLowerStr uIn) hu
    unfold handleDeleteRoom
    simp only [hroom]
    rw [if_pos htype, if_neg (by rw [hcontains]; decide), hmem]
    rw [if_pos (by simpa using hfl)]
    refine ⟨rfl, ?_, ?_, ?_⟩
    · simp [purgeRoom, setRoom, setMessages, setRoomUsers]
    · simp [purgeRoom, setRoom, setMessages, setRoomUsers]
    · intro v t2
      show kvGet t2 ((setRoomUsers (setMessages (setRoom s roomId none) roomId [])
        roomId []).presence.filter (fun p => decide (p.1.1 ≠ roomId))) (roomId, v) = none
      apply kvGet_filter_excluded
      intro e
      simp
  · intro s roomId uIn now room m1 m2 hvu hvr hroom htype hmem hu hpres
    have hguard : ¬(roomId = "" ∨ toLowerStr uIn = "") := by
      simp [isValidRoomId_ne_empty hvr, isValidUsername_ne_empty hvu]
    have hfl := two_member_filter_le_one m1 m2 (toLowerStr uIn) hu
    unfold handleLeaveRoom
    rw [if_neg hguard, if_neg (by simp [hvu]), if_neg (by simp [hvr])]
    simp only [hroom, hpres, if_true]
    rw [if_pos htype, hmem]
    rw [if_pos (by simpa using hfl)]
    refine ⟨rfl, ?_, ?_, ?_, ?_⟩
    · simp [setRoom, setMessages, setRoomUsers]
    · simp [setRoom, setMessages, setRoomUsers]
    · intro t2
      show kvGet t2 (setRoomUsers (setMessages (setRoom
          (refreshRoomUserCount { s with presence := kvDel s.presence (roomId, toLowerStr uIn) } roomId now).2
          roomId none) roomId []) roomId []).presence (roomId, toLowerStr uIn) = none
      show kvGet t2 (refreshRoomUserCount { s with presence := kvDel s.presence (roomId, toLowerStr uIn) } roomId now).2.presence (roomId, toLowerStr uIn) = none
      rw [refreshRoomUserCount_presence]
      exact kvGet_kvDel_self _ _ _
    · intro v t2 hv
      show kvGet t2 (refreshRoomUserCount { s with presence := kvDel s.presence (roomId, toLowerStr uIn) } roomId now).2.presence (roomId, v) = _
      rw [refreshRoomUserCount_presence]
      exact kvGet_kvDel_ne _ _ _ _ (by simp [hv])
  · intro s roomId uIn now hvu hvr hroom hpres
    obtain ⟨room, hroomeq⟩ := Option.isSome_iff_exists.mp hroom
    have hguard : ¬(roomId = "" ∨ toLowerStr uIn = "") := by
      simp [isValidRoomId_ne_empty hvr, isValidUsername_ne_empty hvu]
    unfold handleLeaveRoom
    rw [if_neg hguard, if_neg (by simp [hvu]), if_neg (by simp [hvr])]
    simp only [hroomeq, hpres]
    rfl

/-- Witness for the amended C7: bob leaving "priv1" through each path. -/
theorem private_two_member_leave_deletes_room_witness :
    ((handleDeleteRoom baseState "priv1" "bob" 0).1 = .ok () ∧
     (handleDeleteRoom baseState "priv1" "bob" 0).2.rooms "priv1" = none ∧
     (handleDeleteRoom baseState "priv1" "bob" 0).2.messages "priv1" = [] ∧
     (∀ v t2, kvGet t2 (handleDeleteRoom baseState "priv1" "bob" 0).2.presence
        ("priv1", v) = none)) ∧
    ((handleLeaveRoom baseState "priv1" "bob" 0).1 = .ok () ∧
     (handleLeaveRoom baseState "priv1" "bob" 0).2.rooms "priv1" = none ∧
     (handleLeaveRoom baseState "priv1" "bob" 0).2.messages "priv1" = [] ∧
     (∀ t2, kvGet t2 (handleLeaveRoom baseState "priv1" "bob" 0).2.presence
        ("priv1", toLowerStr "bob") = none) ∧
     (∀ v t2, v ≠ toLowerStr "bob" →
        kvGet t2 (handleLeaveRoom baseState "priv1" "bob" 0).2.presence ("priv1", v)
          = kvGet t2 baseState.presence ("priv1", v))) :=
  ⟨private_two_member_leave_deletes_room.1 baseState "priv1" "bob" 0 priv1Room
      "alice" "bob" (by decide) (by decide) (by decide) (Or.inr (by decide)),
   private_two_member_leave_deletes_room.2.1 baseState "priv1" "bob" 0 priv1Room
      "alice" "bob" (by decide) (by decide) (by decide) (by decide) (by decide)
      (Or.inr (by decide)) (by decide)⟩

end ChatRooms
